import Mathlib

/-!
Shallow embedding of the `2hindas/oresd-amr` repository (adaptive octree
mesh refinement for 3-D frequency-domain electromagnetic modelling).

Sources embedded:
* `src/src/ErrorEstimator.py` — interpolation helpers,
  `estimate_curl_electric_field`, `compute_cell_error`, `estimate_error`,
  and the two iteration schemes `iterator` / `iteratornonobject`;
* `src/src/realisticmodel.py` — the per-column seafloor extraction.

External third-party frameworks (SimPEG simulations, the discretize octree
library, scipy interpolators, numdifftools, numpy's norm and complex
modulus) are modelled as oracle fields of an `Env` record: the repository
only configures and calls them, so each is an opaque function whose outputs
the embedded code consumes exactly as the Python code consumes the library
outputs.  The implied `Meshing` helper module of the repository is not
under `src/`; its operations used here are modelled from the spec and
carry a `Modelled from the spec:` doc comment.

Scalars are kept generic in a linear ordered field `R` (with a floor
structure for `np.ceil`); complex values are pairs over `R`.  Witness
instantiations use `R := ℚ` so concrete runs evaluate by `decide`/`rfl`.
-/

set_option linter.unusedSectionVars false

namespace OresdAmr

variable {R : Type} [LinearOrderedField R] [FloorRing R]
variable {Pt : Type} [Inhabited Pt]
variable {D W S V C : Type}

/-- Complex number over the scalar field `R`, modelling Python complex
values (the solver solutions and source terms are complex arrays). -/
structure Cx (R : Type) where
  re : R
  im : R
deriving DecidableEq, Repr

instance : Add (Cx R) := ⟨fun a b => ⟨a.re + b.re, a.im + b.im⟩⟩

instance : Sub (Cx R) := ⟨fun a b => ⟨a.re - b.re, a.im - b.im⟩⟩

instance : Mul (Cx R) :=
  ⟨fun a b => ⟨a.re * b.re - a.im * b.im, a.re * b.im + a.im * b.re⟩⟩

/-- Complex division `a / b = a * conj b / |b|^2`.  In the scalar field a
division by zero yields `0` (Python/numpy would instead produce nan/inf;
the source itself flags the places dividing by a possibly-zero field value
as numerically fragile, and no claim settled here rests on that case). -/
instance : Div (Cx R) :=
  ⟨fun a b =>
    ⟨(a.re * b.re + a.im * b.im) / (b.re * b.re + b.im * b.im),
     (a.im * b.re - a.re * b.im) / (b.re * b.re + b.im * b.im)⟩⟩

instance : Zero (Cx R) := ⟨⟨0, 0⟩⟩

/-- The imaginary unit `1j`. -/
def Cx.I : Cx R := ⟨0, 1⟩

/-- Embeds a real scalar (e.g. `omega`) into the complex numbers. -/
def Cx.ofReal (x : R) : Cx R := ⟨x, 0⟩

/-- Python slice `l[a:b]` for nonnegative bounds. -/
def pySlice (l : List α) (a b : Nat) : List α := (l.take b).drop a

/-- Python slice `l[s:]` for a possibly negative start index `s`
(numpy/Python semantics: a negative start counts from the end and clamps
at 0; in particular `l[-0:] = l[0:]` is the whole list). -/
def pySliceFrom (s : Int) (l : List α) : List α :=
  if 0 ≤ s then l.drop s.toNat else l.drop (l.length - (-s).toNat)

/-- The face and edge location arrays of a finalized mesh, as exposed by
the external octree mesh object (`mesh.faces_x`, …, `mesh.edges_z`). -/
structure MeshData (Pt : Type) where
  faces_x : List Pt
  faces_y : List Pt
  faces_z : List Pt
  edges_x : List Pt
  edges_y : List Pt
  edges_z : List Pt

/-- `mesh.n_faces_x`: the octree library reports the length of the x-face
array (a library invariant, used as such by the source). -/
def MeshData.n_faces_x (m : MeshData Pt) : Nat := m.faces_x.length

/-- `mesh.n_faces_y`. -/
def MeshData.n_faces_y (m : MeshData Pt) : Nat := m.faces_y.length

/-- `mesh.n_faces_z`. -/
def MeshData.n_faces_z (m : MeshData Pt) : Nat := m.faces_z.length

/-- `mesh.n_edges_x`. -/
def MeshData.n_edges_x (m : MeshData Pt) : Nat := m.edges_x.length

/-- `mesh.n_edges_y`. -/
def MeshData.n_edges_y (m : MeshData Pt) : Nat := m.edges_y.length

/-- `mesh.n_edges_z`. -/
def MeshData.n_edges_z (m : MeshData Pt) : Nat := m.edges_z.length

/-- An octree mesh under (re)construction, recording the data it was built
from and the accumulated refinement requests.  Modelled from the spec:
the `Meshing` module (referenced by the source but not under `src/`)
builds a fresh un-finalized mesh from a domain, a finest cell width and a
feature, accumulates refinement requests, and commits them on finalize. -/
structure OMesh (Pt D W : Type) where
  domain : D
  cell_width : W
  feature : List Pt
  mode : String
  refinements : List (List Pt)
  finalized : Bool
deriving DecidableEq

/-- Modelled from the spec: `create_octree_mesh(domain, cell_width,
feature, mode)` from the implied `Meshing` module builds a fresh,
un-finalized octree mesh spanning `domain` with finest cell width
`cell_width`, with an initial refinement pass driven by `feature` using
the named `mode`. -/
def create_octree_mesh (domain : D) (cell_width : W) (feature : List Pt)
    (mode : String) : OMesh Pt D W :=
  ⟨domain, cell_width, feature, mode, [], false⟩

/-- Modelled from the spec: `refine_at_locations(mesh, points)` requests
additional refinement of the mesh near each point of `points`; it does not
finalize. -/
def refine_at_locations (mesh : OMesh Pt D W) (points : List Pt) :
    OMesh Pt D W :=
  { mesh with refinements := mesh.refinements ++ [points] }

/-- Modelled from the spec: `mesh.finalize()` commits the accumulated
refinement requests, fixing the mesh topology. -/
def OMesh.finalize (mesh : OMesh Pt D W) : OMesh Pt D W :=
  { mesh with finalized := true }

/-- The active-cell injection mapping `maps.InjectActiveCells(mesh,
ind_active, value)` of the external simulation framework, recorded by its
constructor arguments (the repository only constructs and passes it). -/
structure MMap (R Pt D W : Type) where
  mesh : OMesh Pt D W
  ind_active : List Bool
  fill : R
deriving DecidableEq

/-- Outputs of the two external forward solves used by
`estimate_curl_electric_field`: the magnetic-flux-density solution
`bSolution`, the pair returned by `getSourceTerm(frequency)` (the Python
code takes component `[0]`, the magnetic source term `Sm`), and the
electric-field solution `eSolution`. -/
structure SimResult (R : Type) where
  bSolution : List (Cx R)
  sourceTerm : List (Cx R) × List (Cx R)
  eSolution : List (Cx R)

/-- A scipy interpolation object, recorded by its construction data: the
strategy used, the sample locations and the sample values.  Evaluation of
such an object at a point is performed by scipy and is therefore an
environment oracle (`Env.evalInterp`). -/
structure Interp (R Pt : Type) where
  strategy : String
  points : List Pt
  values : List (Cx R)
deriving DecidableEq

/-- Strategy name for radial-basis-function interpolation. -/
def rbfStr : String := "rbf"

/-- Strategy name for piecewise-linear interpolation. -/
def linearStr : String := "linear"

/-- Strategy name for nearest-neighbour interpolation. -/
def nearestStr : String := "nearest"

/-- Object type flag for an embedded block. -/
def blockStr : String := "block"

/-- Object type flag for an embedded sphere. -/
def sphereStr : String := "sphere"

/-- Rotation axis default of the `Meshing` indicator helpers. -/
def xStr : String := "x"

/-- Mode string used on every mesh rebuild in the iteration schemes. -/
def surfaceStr : String := "surface"

/-- `interpolate_rbf`: builds one radial-basis-function interpolator per
axis from the face/edge locations and the corresponding value blocks. -/
def interpolate_rbf (x y z : List Pt) (x_val y_val z_val : List (Cx R)) :
    Interp R Pt × Interp R Pt × Interp R Pt :=
  (⟨rbfStr, x, x_val⟩, ⟨rbfStr, y, y_val⟩, ⟨rbfStr, z, z_val⟩)

/-- `interpolate_nearest`: one nearest-neighbour interpolator per axis. -/
def interpolate_nearest (x y z : List Pt) (x_val y_val z_val : List (Cx R)) :
    Interp R Pt × Interp R Pt × Interp R Pt :=
  (⟨nearestStr, x, x_val⟩, ⟨nearestStr, y, y_val⟩, ⟨nearestStr, z, z_val⟩)

/-- `interpolate_linear`: one piecewise-linear interpolator per axis. -/
def interpolate_linear (x y z : List Pt) (x_val y_val z_val : List (Cx R)) :
    Interp R Pt × Interp R Pt × Interp R Pt :=
  (⟨linearStr, x, x_val⟩, ⟨linearStr, y, y_val⟩, ⟨linearStr, z, z_val⟩)

/-- Environment of external-library oracles.  Each field stands for a
third-party operation the repository calls but does not implement:
`surface2ind_topo` and the simulations come from SimPEG, `meshData`,
`n_cells` and `cell_centers` from the octree mesh object, `evalInterp`
from scipy, `jacobian` from numdifftools (first argument is the `order`
parameter; a `none` entry models a nan), `cabs`/`norm3r`/`norm3c` from
numpy (`np.abs` on a complex scalar, `np.linalg.norm` on a real and on a
complex 3-vector), and the `get_ind_*` / `search_area_*` helpers from the
repository's own `Meshing` module (not under `src/`), kept opaque here
because no settled claim depends on their geometric content — except that
`get_ind_block` takes the rotation axis and angle, per the spec, with
defaults `axis='x'`, `degrees_rad=0` (matching `iterator`'s own default
parameters), which matters for the rebuild call that omits them. -/
structure Env (R Pt D W S V C : Type) where
  surface2ind_topo : OMesh Pt D W → S → List Bool
  n_cells : OMesh Pt D W → Nat
  cell_centers : OMesh Pt D W → List Pt
  meshData : OMesh Pt D W → MeshData Pt
  sim : OMesh Pt D W → V → MMap R Pt D W → List R → String → R → SimResult R
  evalInterp : Interp R Pt → Pt → Cx R
  jacobian : Nat → (Pt → Cx R × Cx R × Cx R) → Pt → (Fin 3 → Fin 3 → Option (Cx R))
  cabs : Cx R → R
  norm3r : R → R → R → R
  norm3c : Cx R → Cx R → Cx R → R
  get_ind_block : OMesh Pt D W → List Bool → C → String → R → List Bool
  get_ind_sphere : OMesh Pt D W → List Bool → C → R → List Bool
  search_area_object : OMesh Pt D W → List Pt → R → List Pt
  search_area_receivers : OMesh Pt D W → List Pt → R → List Pt
  search_area_sources : OMesh Pt D W → List Pt → R → List Pt
  search_area_landscape : OMesh Pt D W → D → List Pt → R → List Pt

/-- `estimate_curl_electric_field(mesh, survey, model_map, model, …)`,
src/src/ErrorEstimator.py lines 109-177.  The two forward solves (the
`parameter` flag selecting `rhoMap` vs `sigmaMap` binding is passed
through to the simulation oracle) produce `bSolution`, the source term
pair (component `[0]` is `Sm`) and `eSolution`; the face curl is
`Sm - 1j*omega*b`, sliced into x/y/z face blocks, the electric field is
sliced into x/y/z edge blocks, and six interpolators are built with the
strategy selected from the `interpolation` string (anything other than
`'rbf'`/`'linear'` falls through to nearest). -/
def estimate_curl_electric_field (env : Env R Pt D W S V C)
    (mesh : OMesh Pt D W) (survey : V) (model_map : MMap R Pt D W)
    (model : List R) (interpolation : String) (frequency : R) (omega : R)
    (parameter : String) :
    Interp R Pt × Interp R Pt × Interp R Pt × Interp R Pt × Interp R Pt × Interp R Pt :=
  let md := env.meshData mesh
  let x_faces := md.faces_x
  let y_faces := md.faces_y
  let z_faces := md.faces_z
  let x_edges := md.edges_x
  let y_edges := md.edges_y
  let z_edges := md.edges_z
  let sr := env.sim mesh survey model_map model parameter frequency
  let magnetic_flux_density := sr.bSolution
  let sources := sr.sourceTerm
  let Sm := sources.1
  let curl := List.zipWith (fun s b => s - Cx.I * Cx.ofReal omega * b) Sm
    magnetic_flux_density
  let x_curl := pySlice curl 0 md.n_faces_x
  let y_curl := pySlice curl md.n_faces_x (md.n_faces_x + md.n_faces_y)
  let z_curl := pySlice curl (md.n_faces_x + md.n_faces_y)
    (md.n_faces_x + md.n_faces_y + md.n_faces_z)
  let interpolator := if interpolation = rbfStr then interpolate_rbf
    else if interpolation = linearStr then interpolate_linear
    else interpolate_nearest
  let curlI := interpolator x_faces y_faces z_faces x_curl y_curl z_curl
  let EF := sr.eSolution
  let EF_x := pySlice EF 0 md.n_edges_x
  let EF_y := pySlice EF md.n_edges_x (md.n_edges_x + md.n_edges_y)
  let EF_z := pySlice EF (md.n_edges_x + md.n_edges_y)
    (md.n_edges_x + md.n_edges_y + md.n_edges_z)
  let efI := interpolator x_edges y_edges z_edges EF_x EF_y EF_z
  (curlI.1, curlI.2.1, curlI.2.2, efI.1, efI.2.1, efI.2.2)

/-- Replaces nan Jacobian entries (modelled as `none`) by `0`, mirroring
`jacobian[np.isnan(jacobian)] = 0`. -/
def zeroNanJac (J : Fin 3 → Fin 3 → Option (Cx R)) : Fin 3 → Fin 3 → Cx R :=
  fun a b => (J a b).getD 0

/-- The curl reconstructed from a 3x3 Jacobian, exactly the expression of
src/src/ErrorEstimator.py lines 188-189. -/
def curlFromJacobian (j : Fin 3 → Fin 3 → Cx R) : Cx R × Cx R × Cx R :=
  (j 2 1 - j 1 2, j 0 2 - j 2 0, j 1 0 - j 0 1)

/-- `compute_cell_error(cell, curl_x, …, ef_z)`, src/src/ErrorEstimator.py
lines 180-193: second-order numdifftools Jacobian of the electric-field
interpolator triple at `cell`, nan entries zeroed, curl reconstructed,
compared against the face-based curl interpolators at the same point, and
reduced by `np.linalg.norm` (the `norm3c` oracle). -/
def compute_cell_error (env : Env R Pt D W S V C) (cell : Pt)
    (curl_x curl_y curl_z ef_x ef_y ef_z : Interp R Pt) : R :=
  let ef_interpolator := fun x =>
    (env.evalInterp ef_x x, env.evalInterp ef_y x, env.evalInterp ef_z x)
  let jacobian := env.jacobian 2 ef_interpolator cell
  let j := zeroNanJac jacobian
  let curl := curlFromJacobian j
  let curl_field :=
    (env.evalInterp curl_x cell, env.evalInterp curl_y cell,
     env.evalInterp curl_z cell)
  env.norm3c (curl_field.1 - curl.1) (curl_field.2.1 - curl.2.1)
    (curl_field.2.2 - curl.2.2)

/-- Comparison relation on (index, error) pairs by error value, used to
model `np.argpartition`'s ordering contract. -/
def argRel (R : Type) [LinearOrderedField R] : (Nat × R) → (Nat × R) → Prop :=
  fun p q => p.2 ≤ q.2

instance : DecidableRel (argRel R) :=
  fun p q => inferInstanceAs (Decidable (p.2 ≤ q.2))

instance : IsTotal (Nat × R) (argRel R) := ⟨fun a b => le_total a.2 b.2⟩

instance : IsTrans (Nat × R) (argRel R) := ⟨fun _ _ _ h h2 => le_trans h h2⟩

/-- Deterministic model of `np.argpartition(cell_errors, kth)`: a full
ascending argsort, which satisfies numpy's partition contract (the element
at every position `kth` is in sorted place, smaller-or-equal values before
it, greater-or-equal after).  numpy leaves the order inside the two sides
unspecified; the claims settled against this model only use the contract,
not the unspecified order. -/
def argsortAsc (cell_errors : List R) : List Nat :=
  (List.insertionSort (argRel R) cell_errors.enum).map Prod.fst

/-- `estimate_error(search_area, curl_x, …, ef_z, refine_percentage)`,
src/src/ErrorEstimator.py lines 196-209: per-point errors via
`compute_cell_error`, then the top `int(np.ceil(p*N))` points selected by
`search_area[np.argpartition(cell_errors, -n)[-n:]]`.  `none` models the
numpy error raised when the partition index `kth = -n` is out of bounds
for the array size (which happens for an empty search area, or when
`n > N`).  The `np.save('error.npy', …)` side effect writes a diagnostic
file that nothing reads back; it has no bearing on the returned value and
is not modelled. -/
def estimate_error (env : Env R Pt D W S V C) (search_area : List Pt)
    (curl_x curl_y curl_z ef_x ef_y ef_z : Interp R Pt)
    (refine_percentage : R) : Option (List Pt) :=
  let cell_errors := search_area.map fun cell =>
    compute_cell_error env cell curl_x curl_y curl_z ef_x ef_y ef_z
  let n_refine_cells : Int := Int.ceil (refine_percentage * (search_area.length : R))
  let kth : Int := -n_refine_cells
  if -(search_area.length : Int) ≤ kth ∧ kth ≤ (search_area.length : Int) - 1 then
    some ((pySliceFrom kth (argsortAsc cell_errors)).map fun j =>
      search_area.getD j default)
  else
    none

/-- numpy boolean-mask assignment `model[mask] = value` (mask aligned to
the model; the external `Meshing` indicator helpers guarantee the mask has
one entry per active cell, stated as a hypothesis where needed). -/
def maskAssign (model : List R) (mask : List Bool) (value : R) : List R :=
  List.zipWith (fun m b => if b then value else m) model mask

/-- The three electric-field interpolators of one iteration. -/
abbrev InterpTriple (R Pt : Type) := Interp R Pt × Interp R Pt × Interp R Pt

/-- One term of `relative_difference_Efield`: for a point `cell`,
`np.linalg.norm(np.abs((ef_old(cell) - ef(cell)) / ef_old(cell)))` —
the elementwise (per-axis) relative difference of the previous and
current electric-field interpolator triples, reduced by the numpy
modulus (`cabs`) and 3-vector norm (`norm3r`) oracles.  The source
marks the division as sensitive to catastrophic failure; no guard is
applied, exactly as in the source. -/
def relDiffPoint (env : Env R Pt D W S V C) (old new : InterpTriple R Pt)
    (cell : Pt) : R :=
  let ox := env.evalInterp old.1 cell
  let oy := env.evalInterp old.2.1 cell
  let oz := env.evalInterp old.2.2 cell
  let nx := env.evalInterp new.1 cell
  let ny := env.evalInterp new.2.1 cell
  let nz := env.evalInterp new.2.2 cell
  env.norm3r (env.cabs ((ox - nx) / ox)) (env.cabs ((oy - ny) / oy))
    (env.cabs ((oz - nz) / oz))

/-- The mutable state of one adaptive-refinement loop iteration, shared
by `iterator` and `iteratornonobject` (the latter leaves `ind_object`
unused and stores its landscape history in `obj_hist`).  `ef_old`/`ef_cur`
are `none` while the corresponding Python locals are still unbound;
iteration indices are integers (the Python code stores them in float
arrays but only ever assigns integer values to them). -/
structure LoopState (R Pt D W : Type) where
  mesh : OMesh Pt D W
  ind_active : List Bool
  model_map : MMap R Pt D W
  model : List R
  ind_object : List Bool
  i : Nat
  diff : R
  av_diff_list : List (Nat × R)
  obj_hist : List (List Pt)
  recv_hist : List (List Pt)
  src_hist : List (List Pt)
  ef_old : Option (InterpTriple R Pt)
  ef_cur : Option (InterpTriple R Pt)
deriving DecidableEq

/-- The caller-supplied parameters of `iterator` that stay fixed across
iterations. -/
structure IterParams (R Pt D W S V C : Type) where
  domain : D
  surface : S
  cell_width : W
  objct : List Pt
  coordinates : C
  receiver_locations : List Pt
  source_locations : List Pt
  survey : V
  par_background : R
  par_object : R
  frequency : R
  omega : R
  parameter : String
  interpolation : String
  type_object : String
  lim_iterations : Nat
  factor_object : R
  factor_receiver : R
  factor_source : R
  refine_percentage : R
  axis : String
  degrees_rad : R
  radius : R

/-- The convergence-record update of one loop iteration
(src/src/ErrorEstimator.py lines 285-331): in a fresh run
(`diff_list[0,0]==0`) the comparison is skipped on the very first
iteration (`if i > 0`); otherwise (later fresh iterations, and every
iteration of a resumed run) the relative differences over the three
search areas combined are averaged, and `[i+1, diff]` is appended.
`none` models the Python error raised when the previous-iteration
interpolators are unbound (resume mode with missing `Ex`/`Ey`/`Ez`). -/
def loopDiffUpdate (env : Env R Pt D W S V C) (fresh : Bool)
    (st : LoopState R Pt D W) (area1 area2 area3 : List Pt)
    (efNew : InterpTriple R Pt) : Option (R × List (Nat × R)) :=
  if fresh ∧ st.i = 0 then some (st.diff, st.av_diff_list)
  else
    match st.ef_old with
    | none => none
    | some old =>
      let relative_difference_Efield :=
        area1.map (relDiffPoint env old efNew) ++
        area2.map (relDiffPoint env old efNew) ++
        area3.map (relDiffPoint env old efNew)
      let diff := relative_difference_Efield.sum /
        (relative_difference_Efield.length : R)
      some (diff, st.av_diff_list ++ [(st.i + 1, diff)])

/-- One iteration of `iterator`'s while loop, src/src/ErrorEstimator.py
lines 267-382: search areas, `estimate_curl_electric_field`, convergence
update, three `estimate_error` selections appended to the history lists,
mesh rebuild replaying sources, receivers and every history entry, then
active cells, model map and model rebuilt against the new mesh.  Note the
rebuild (source line 376) calls `get_ind_block(mesh, ind_active,
coordinates)` WITHOUT the caller's `axis` and `degrees_rad`, so those take
the `Meshing` defaults `'x'` and `0`, unlike the pre-loop setup (source
line 236) which passes them. -/
def iteratorBody (env : Env R Pt D W S V C) (P : IterParams R Pt D W S V C)
    (fresh : Bool) (st : LoopState R Pt D W) : Option (LoopState R Pt D W) :=
  let search_area_obj := env.search_area_object st.mesh P.objct P.factor_object
  let search_area_receiv := env.search_area_receivers st.mesh
    P.receiver_locations P.factor_receiver
  let search_area_sourc := env.search_area_sources st.mesh
    P.source_locations P.factor_source
  let six := estimate_curl_electric_field env st.mesh P.survey st.model_map
    st.model P.interpolation P.frequency P.omega P.parameter
  let curl_x := six.1
  let curl_y := six.2.1
  let curl_z := six.2.2.1
  let ef_x := six.2.2.2.1
  let ef_y := six.2.2.2.2.1
  let ef_z := six.2.2.2.2.2
  Option.bind (loopDiffUpdate env fresh st search_area_obj search_area_receiv
      search_area_sourc (ef_x, ef_y, ef_z)) fun du =>
  Option.bind (estimate_error env search_area_obj curl_x curl_y curl_z
      ef_x ef_y ef_z P.refine_percentage) fun cells_to_refine_object =>
  Option.bind (estimate_error env search_area_receiv curl_x curl_y curl_z
      ef_x ef_y ef_z P.refine_percentage) fun cells_to_refine_receivers =>
  Option.bind (estimate_error env search_area_sourc curl_x curl_y curl_z
      ef_x ef_y ef_z P.refine_percentage) fun cells_to_refine_sources =>
  let obj_hist1 := st.obj_hist ++ [cells_to_refine_object]
  let recv_hist1 := st.recv_hist ++ [cells_to_refine_receivers]
  let src_hist1 := st.src_hist ++ [cells_to_refine_sources]
  let mesh0 : OMesh Pt D W := create_octree_mesh P.domain P.cell_width P.objct surfaceStr
  let mesh1 := refine_at_locations mesh0 P.source_locations
  let mesh2 := refine_at_locations mesh1 P.receiver_locations
  let mesh3 := obj_hist1.foldl refine_at_locations mesh2
  let mesh4 := recv_hist1.foldl refine_at_locations mesh3
  let mesh5 := src_hist1.foldl refine_at_locations mesh4
  let meshN := mesh5.finalize
  let ind_active1 := env.surface2ind_topo meshN P.surface
  let model_map1 : MMap R Pt D W := ⟨meshN, ind_active1, P.par_background⟩
  let model0 := List.replicate (ind_active1.count true) P.par_background
  let ind_object1 :=
    if P.type_object = blockStr then
      env.get_ind_block meshN ind_active1 P.coordinates xStr 0
    else if P.type_object = sphereStr then
      env.get_ind_sphere meshN ind_active1 P.coordinates P.radius
    else st.ind_object
  let model1 := maskAssign model0 ind_object1 P.par_object
  some { mesh := meshN, ind_active := ind_active1, model_map := model_map1,
         model := model1, ind_object := ind_object1, i := st.i + 1,
         diff := du.1, av_diff_list := du.2, obj_hist := obj_hist1,
         recv_hist := recv_hist1, src_hist := src_hist1,
         ef_old := some (ef_x, ef_y, ef_z), ef_cur := some (ef_x, ef_y, ef_z) }

/-- The while loop shared by the two iteration schemes:
`while diff > 0.01 and i < lim_iterations: body`.  Fuel-indexed recursion;
the callers supply fuel `cap - i`, which is sufficient because every body
execution increments `i` by one (proved below), so the loop result is
exactly the while loop's.  The returned `Nat` counts executed body
iterations. -/
def amrLoop (body : LoopState R Pt D W → Option (LoopState R Pt D W))
    (cap : Nat) : Nat → LoopState R Pt D W → Option (LoopState R Pt D W × Nat)
  | 0, st => some (st, 0)
  | Nat.succ fuel, st =>
    if st.diff > 1 / 100 ∧ st.i < cap then
      match body st with
      | none => none
      | some st1 =>
        match amrLoop body cap fuel st1 with
        | none => none
        | some (st2, n) => some (st2, n + 1)
    else some (st, 0)

/-- The pre-loop setup and fresh/resume dispatch of `iterator`
(src/src/ErrorEstimator.py lines 227-265): active cells below the surface,
injection map, background model overwritten on the object indicator
(pre-loop call passes the caller's `axis`/`degrees_rad`), then the
`diff_list[0,0] == 0` test: fresh runs start at `i = 0` with empty record
and histories and cap `lim_iterations`; otherwise the run resumes at
`i = diff_list[-1,0]` with the supplied record, histories and previous
interpolators, and cap `lim_iterations + i`.  Returns the fresh flag, the
effective cap and the initial loop state; `none` models the Python errors
on an empty `diff_list` or on resuming without the history lists. -/
def iteratorInit (env : Env R Pt D W S V C) (P : IterParams R Pt D W S V C)
    (mesh : OMesh Pt D W) (ind_object : List Bool)
    (Ex Ey Ez : Option (Interp R Pt)) (diff_list : List (Nat × R))
    (r_a_o_list r_a_r_list r_a_s_list : Option (List (List Pt))) :
    Option (Bool × Nat × LoopState R Pt D W) :=
  let ind_active := env.surface2ind_topo mesh P.surface
  let model_map : MMap R Pt D W := ⟨mesh, ind_active, P.par_background⟩
  let model0 := List.replicate (ind_active.count true) P.par_background
  let ind_object1 :=
    if P.type_object = blockStr then
      env.get_ind_block mesh ind_active P.coordinates P.axis P.degrees_rad
    else if P.type_object = sphereStr then
      env.get_ind_sphere mesh ind_active P.coordinates P.radius
    else ind_object
  let model := maskAssign model0 ind_object1 P.par_object
  match diff_list.head? with
  | none => none
  | some h =>
    if h.1 = 0 then
      some (true, P.lim_iterations,
        { mesh := mesh, ind_active := ind_active, model_map := model_map,
          model := model, ind_object := ind_object1, i := 0, diff := 10,
          av_diff_list := [], obj_hist := [], recv_hist := [], src_hist := [],
          ef_old := none, ef_cur := none })
    else
      match r_a_o_list, r_a_r_list, r_a_s_list with
      | some ro, some rr, some rs =>
        let i0 := (diff_list.getLastD h).1
        let efo : Option (InterpTriple R Pt) :=
          match Ex, Ey, Ez with
          | some x, some y, some z => some (x, y, z)
          | _, _, _ => none
        some (false, P.lim_iterations + i0,
          { mesh := mesh, ind_active := ind_active, model_map := model_map,
            model := model, ind_object := ind_object1, i := i0, diff := 10,
            av_diff_list := diff_list, obj_hist := ro, recv_hist := rr,
            src_hist := rs, ef_old := efo, ef_cur := none })
      | _, _, _ => none

/-- The two return shapes of `iterator`/`iteratornonobject`: the converged
branch returns the Python 5-tuple `(mesh, ef_x, ef_y, ef_z,
np.array(av_diff_list))`; the exhausted branch returns the 8-tuple adding
the three refinement-history lists (in `iteratornonobject` the first
history list is the landscape one). -/
inductive IterResult (R Pt D W : Type) where
  | converged (mesh : OMesh Pt D W) (ef_x ef_y ef_z : Interp R Pt)
      (av_diff_list : List (Nat × R))
  | exhausted (mesh : OMesh Pt D W) (ef_x ef_y ef_z : Interp R Pt)
      (av_diff_list : List (Nat × R))
      (obj_hist recv_hist src_hist : List (List Pt))
deriving DecidableEq

/-- The number of values in the returned Python tuple. -/
def IterResult.arity : IterResult R Pt D W → Nat
  | .converged .. => 5
  | .exhausted .. => 8

/-- Whether the result is the short (converged-branch) form. -/
def IterResult.isConverged : IterResult R Pt D W → Bool
  | .converged .. => true
  | .exhausted .. => false

/-- The convergence record carried by the result. -/
def IterResult.avList : IterResult R Pt D W → List (Nat × R)
  | .converged _ _ _ _ av => av
  | .exhausted _ _ _ _ av _ _ _ => av

/-- The length of the first returned history list (0 for the short form,
which carries none). -/
def IterResult.objHistLen : IterResult R Pt D W → Nat
  | .converged .. => 0
  | .exhausted _ _ _ _ _ o _ _ => o.length

/-- The post-loop return dispatch (src/src/ErrorEstimator.py lines
383-387): the short form is returned iff the final `diff` is strictly
below `0.01` (so an exit with `diff` exactly `0.01` takes the long form);
`none` models the Python NameError when the loop body never ran and
`ef_x` is unbound. -/
def iteratorFinish (st : LoopState R Pt D W) : Option (IterResult R Pt D W) :=
  match st.ef_cur with
  | none => none
  | some e =>
    if st.diff < 1 / 100 then
      some (.converged st.mesh e.1 e.2.1 e.2.2 st.av_diff_list)
    else
      some (.exhausted st.mesh e.1 e.2.1 e.2.2 st.av_diff_list st.obj_hist
        st.recv_hist st.src_hist)

/-- `iterator(...)`, src/src/ErrorEstimator.py lines 212-387, assembled
from `iteratorInit`, the while loop and the return dispatch. -/
def iterator (env : Env R Pt D W S V C) (mesh : OMesh Pt D W) (domain : D)
    (surface : S) (cell_width : W) (objct : List Pt) (coordinates : C)
    (receiver_locations source_locations : List Pt) (survey : V)
    (par_background par_object : R) (ind_object : List Bool)
    (frequency omega : R) (parameter interpolation type_object : String)
    (lim_iterations : Nat)
    (factor_object factor_receiver factor_source refine_percentage : R)
    (axis : String) (degrees_rad radius : R)
    (Ex Ey Ez : Option (Interp R Pt)) (diff_list : List (Nat × R))
    (r_a_o_list r_a_r_list r_a_s_list : Option (List (List Pt))) :
    Option (IterResult R Pt D W) :=
  let P : IterParams R Pt D W S V C :=
    ⟨domain, surface, cell_width, objct, coordinates, receiver_locations,
     source_locations, survey, par_background, par_object, frequency, omega,
     parameter, interpolation, type_object, lim_iterations, factor_object,
     factor_receiver, factor_source, refine_percentage, axis, degrees_rad,
     radius⟩
  Option.bind (iteratorInit env P mesh ind_object Ex Ey Ez diff_list
      r_a_o_list r_a_r_list r_a_s_list) fun t =>
  Option.bind (amrLoop (iteratorBody env P t.1) t.2.1 (t.2.1 - t.2.2.i)
      t.2.2) fun p =>
  iteratorFinish p.1

/-- The caller-supplied parameters of `iteratornonobject` that stay fixed
across iterations. -/
structure NonObjParams (R Pt D W V : Type) where
  domain : D
  cell_width : W
  landscape : List Pt
  receiver_locations : List Pt
  source_locations : List Pt
  survey : V
  resistivity_function : List Pt → List R
  frequency : R
  omega : R
  parameter : String
  interpolation : String
  lim_iterations : Nat
  factor_receiver : R
  factor_source : R
  factor_landscape : R
  refine_percentage : R
  par_inactive : R

/-- One iteration of `iteratornonobject`'s while loop,
src/src/ErrorEstimator.py lines 440-548: identical structure to
`iteratorBody` with the landscape search area in place of the object one,
the rebuild driven by the landscape feature, all cells active on the new
mesh, the injection map filled with `par_inactive`, and the model
recomputed from `resistivity_function` at the new cell centers.  The
landscape history is stored in the state's `obj_hist` field. -/
def iteratornonobjectBody (env : Env R Pt D W S V C)
    (Q : NonObjParams R Pt D W V) (fresh : Bool)
    (st : LoopState R Pt D W) : Option (LoopState R Pt D W) :=
  let search_area_below_landscape := env.search_area_landscape st.mesh
    Q.domain Q.landscape Q.factor_landscape
  let search_area_receiv := env.search_area_receivers st.mesh
    Q.receiver_locations Q.factor_receiver
  let search_area_sourc := env.search_area_sources st.mesh
    Q.source_locations Q.factor_source
  let six := estimate_curl_electric_field env st.mesh Q.survey st.model_map
    st.model Q.interpolation Q.frequency Q.omega Q.parameter
  let curl_x := six.1
  let curl_y := six.2.1
  let curl_z := six.2.2.1
  let ef_x := six.2.2.2.1
  let ef_y := six.2.2.2.2.1
  let ef_z := six.2.2.2.2.2
  Option.bind (loopDiffUpdate env fresh st search_area_below_landscape
      search_area_receiv search_area_sourc (ef_x, ef_y, ef_z)) fun du =>
  Option.bind (estimate_error env search_area_below_landscape curl_x curl_y
      curl_z ef_x ef_y ef_z Q.refine_percentage) fun cells_to_refine_landscape =>
  Option.bind (estimate_error env search_area_receiv curl_x curl_y curl_z
      ef_x ef_y ef_z Q.refine_percentage) fun cells_to_refine_receivers =>
  Option.bind (estimate_error env search_area_sourc curl_x curl_y curl_z
      ef_x ef_y ef_z Q.refine_percentage) fun cells_to_refine_sources =>
  let landscape_hist1 := st.obj_hist ++ [cells_to_refine_landscape]
  let recv_hist1 := st.recv_hist ++ [cells_to_refine_receivers]
  let src_hist1 := st.src_hist ++ [cells_to_refine_sources]
  let mesh0 : OMesh Pt D W := create_octree_mesh Q.domain Q.cell_width Q.landscape surfaceStr
  let mesh1 := refine_at_locations mesh0 Q.source_locations
  let mesh2 := refine_at_locations mesh1 Q.receiver_locations
  let mesh3 := landscape_hist1.foldl refine_at_locations mesh2
  let mesh4 := recv_hist1.foldl refine_at_locations mesh3
  let mesh5 := src_hist1.foldl refine_at_locations mesh4
  let meshN := mesh5.finalize
  let ind_active1 := List.replicate (env.n_cells meshN) true
  let model_map1 : MMap R Pt D W := ⟨meshN, ind_active1, Q.par_inactive⟩
  let model1 := Q.resistivity_function (env.cell_centers meshN)
  some { mesh := meshN, ind_active := ind_active1, model_map := model_map1,
         model := model1, ind_object := st.ind_object, i := st.i + 1,
         diff := du.1, av_diff_list := du.2, obj_hist := landscape_hist1,
         recv_hist := recv_hist1, src_hist := src_hist1,
         ef_old := some (ef_x, ef_y, ef_z), ef_cur := some (ef_x, ef_y, ef_z) }

/-- The pre-loop setup and fresh/resume dispatch of `iteratornonobject`
(src/src/ErrorEstimator.py lines 405-432): all cells active, injection map
filled with `par_inactive`, model recomputed from `resistivity_function` —
both the caller's `model_map` and `model` arguments are unconditionally
overwritten here before any use. -/
def iteratornonobjectInit (env : Env R Pt D W S V C)
    (Q : NonObjParams R Pt D W V) (mesh : OMesh Pt D W)
    (Ex Ey Ez : Option (Interp R Pt)) (diff_list : List (Nat × R))
    (r_a_l_list r_a_r_list r_a_s_list : Option (List (List Pt))) :
    Option (Bool × Nat × LoopState R Pt D W) :=
  let ind_active := List.replicate (env.n_cells mesh) true
  let model_map : MMap R Pt D W := ⟨mesh, ind_active, Q.par_inactive⟩
  let model := Q.resistivity_function (env.cell_centers mesh)
  match diff_list.head? with
  | none => none
  | some h =>
    if h.1 = 0 then
      some (true, Q.lim_iterations,
        { mesh := mesh, ind_active := ind_active, model_map := model_map,
          model := model, ind_object := [], i := 0, diff := 10,
          av_diff_list := [], obj_hist := [], recv_hist := [], src_hist := [],
          ef_old := none, ef_cur := none })
    else
      match r_a_l_list, r_a_r_list, r_a_s_list with
      | some rl, some rr, some rs =>
        let i0 := (diff_list.getLastD h).1
        let efo : Option (InterpTriple R Pt) :=
          match Ex, Ey, Ez with
          | some x, some y, some z => some (x, y, z)
          | _, _, _ => none
        some (false, Q.lim_iterations + i0,
          { mesh := mesh, ind_active := ind_active, model_map := model_map,
            model := model, ind_object := [], i := i0, diff := 10,
            av_diff_list := diff_list, obj_hist := rl, recv_hist := rr,
            src_hist := rs, ef_old := efo, ef_cur := none })
      | _, _, _ => none

/-- `iteratornonobject(...)`, src/src/ErrorEstimator.py lines 390-553.
The caller-supplied `model_map` and `model` arguments appear in the
signature exactly as in the source, and exactly as in the source they are
shadowed by the recomputed map and model before anything reads them. -/
def iteratornonobject (env : Env R Pt D W S V C) (mesh : OMesh Pt D W)
    (domain : D) (cell_width : W) (landscape : List Pt)
    (receiver_locations source_locations : List Pt) (survey : V)
    (resistivity_function : List Pt → List R)
    (model_map : MMap R Pt D W) (model : List R)
    (frequency omega : R) (parameter interpolation : String)
    (lim_iterations : Nat)
    (factor_receiver factor_source factor_landscape refine_percentage : R)
    (par_inactive : R)
    (Ex Ey Ez : Option (Interp R Pt)) (diff_list : List (Nat × R))
    (r_a_l_list r_a_r_list r_a_s_list : Option (List (List Pt))) :
    Option (IterResult R Pt D W) :=
  let Q : NonObjParams R Pt D W V :=
    ⟨domain, cell_width, landscape, receiver_locations, source_locations,
     survey, resistivity_function, frequency, omega, parameter,
     interpolation, lim_iterations, factor_receiver, factor_source,
     factor_landscape, refine_percentage, par_inactive⟩
  Option.bind (iteratornonobjectInit env Q mesh Ex Ey Ez diff_list
      r_a_l_list r_a_r_list r_a_s_list) fun t =>
  Option.bind (amrLoop (iteratornonobjectBody env Q t.1) t.2.1
      (t.2.1 - t.2.2.i) t.2.2) fun p =>
  iteratorFinish p.1

/-- The per-column seafloor extraction of src/src/realisticmodel.py lines
75-81: `mesh.nodes_z[:-1][model.property_x[i, ii, :] < 0.33][0]` — the
node elevations below the top one (i.e. each cell's bottom node, the node
arrays being ascending), masked by the column's x-resistivity being below
0.33, first element taken.  `none` models the IndexError raised when no
cell of the column is below the threshold. -/
def seafloorEntry (nodes_z : List ℚ) (column_property : List ℚ) : Option ℚ :=
  (((nodes_z.dropLast.zip column_property).filter
    (fun pb => pb.2 < 33 / 100)).head?).map Prod.fst

/-- The full seafloor grid of src/src/realisticmodel.py lines 75-81: one
entry per (x, y) column of the mesh (the `np.ones` initial value is
overwritten at every index by the double loop). -/
def seafloor (nodes_z : List ℚ) (property_x : Nat → Nat → List ℚ) :
    Nat → Nat → Option ℚ :=
  fun i ii => seafloorEntry nodes_z (property_x i ii)

/-- The value the claim asserts for a column (stated from the claim's own
words, for comparison with `seafloorEntry`): the top elevation of the
shallowest — numerically largest z — cell whose x-resistivity is below
0.33, i.e. the last matching cell in ascending order, with its top node
`nodes_z[k+1]`. -/
def claimSeafloorEntry (nodes_z : List ℚ) (column_property : List ℚ) :
    Option ℚ :=
  ((((nodes_z.drop 1).zip column_property).filter
    (fun pb => pb.2 < 33 / 100)).getLast?).map Prod.fst

/-- Parameter flag selecting the resistivity parameterization. -/
def resistivityStr : String := "resistivity"

/-- A non-default rotation axis, used to exercise the rebuild's dropped
`axis` argument. -/
def yStr : String := "y"

/-- Squared modulus of a complex number over the reals. -/
def cxAbsSq (z : Cx ℝ) : ℝ := z.re ^ 2 + z.im ^ 2

/-- The Euclidean (2-)norm of a complex 3-vector, the documented behaviour
of `np.linalg.norm` on a complex array. -/
noncomputable def cnormEuclid (a b c : Cx ℝ) : ℝ :=
  Real.sqrt (cxAbsSq a + cxAbsSq b + cxAbsSq c)

/-- A finalized trivial concrete mesh for witness runs. -/
def meshQ : OMesh ℕ Unit Unit := ⟨(), (), [], surfaceStr, [], true⟩

/-- Empty concrete mesh data. -/
def mdQ : MeshData ℕ := ⟨[], [], [], [], [], []⟩

/-- A benign concrete rational environment: every oracle is a small
constant function, the previous/current field values agree everywhere (so
relative differences are 0). -/
def qEnv : Env ℚ ℕ Unit Unit Unit Unit Unit where
  surface2ind_topo := fun _ _ => [true]
  n_cells := fun _ => 1
  cell_centers := fun _ => [0]
  meshData := fun _ => mdQ
  sim := fun _ _ _ _ _ _ => ⟨[], ([], []), []⟩
  evalInterp := fun _ _ => ⟨1, 0⟩
  jacobian := fun _ _ _ => fun _ _ => none
  cabs := Cx.re
  norm3r := fun a b c => a + b + c
  norm3c := fun _ _ _ => 0
  get_ind_block := fun _ _ _ _ _ => [true]
  get_ind_sphere := fun _ _ _ _ => [true]
  search_area_object := fun _ _ _ => [0]
  search_area_receivers := fun _ _ _ => [0]
  search_area_sources := fun _ _ _ => [0]
  search_area_landscape := fun _ _ _ _ => [0]

/-- Concrete environment with two active cells whose block indicator
depends on the rotation axis: axis `'y'` marks the second cell, anything
else (in particular the default `'x'`) marks the first. -/
def env8 : Env ℚ ℕ Unit Unit Unit Unit Unit :=
  { qEnv with
    surface2ind_topo := fun _ _ => [true, true]
    n_cells := fun _ => 2
    cell_centers := fun _ => [0, 1]
    get_ind_block := fun _ _ _ ax _ =>
      if ax = yStr then [false, true] else [true, false] }

/-- Concrete mesh data with one face and one edge per axis. -/
def md1 : MeshData ℕ := ⟨[1], [2], [3], [4], [5], [6]⟩

/-- Concrete simulation output with three face values and three edge
values, matching `md1`'s face and edge counts. -/
def sr1 : SimResult ℚ :=
  ⟨[⟨1, 1⟩, ⟨2, 0⟩, ⟨0, 3⟩], ([⟨1, 0⟩, ⟨0, 1⟩, ⟨2, 2⟩], []),
   [⟨5, 0⟩, ⟨6, 1⟩, ⟨7, 2⟩]⟩

/-- Concrete environment for exercising the curl/field splitting. -/
def env1 : Env ℚ ℕ Unit Unit Unit Unit Unit :=
  { qEnv with meshData := fun _ => md1, sim := fun _ _ _ _ _ _ => sr1 }

/-- A concrete real environment whose complex-vector norm is the
Euclidean norm (as numpy's is). -/
noncomputable def envR : Env ℝ ℕ Unit Unit Unit Unit Unit where
  surface2ind_topo := fun _ _ => [true]
  n_cells := fun _ => 1
  cell_centers := fun _ => [0]
  meshData := fun _ => ⟨[], [], [], [], [], []⟩
  sim := fun _ _ _ _ _ _ => ⟨[], ([], []), []⟩
  evalInterp := fun _ _ => ⟨1, 0⟩
  jacobian := fun _ _ _ => fun _ _ => none
  cabs := Cx.re
  norm3r := fun a b c => a + b + c
  norm3c := cnormEuclid
  get_ind_block := fun _ _ _ _ _ => [true]
  get_ind_sphere := fun _ _ _ _ => [true]
  search_area_object := fun _ _ _ => [0]
  search_area_receivers := fun _ _ _ => [0]
  search_area_sources := fun _ _ _ => [0]
  search_area_landscape := fun _ _ _ _ => [0]

/-- A concrete interpolator object. -/
def qInterp : Interp ℚ ℕ := ⟨nearestStr, [], []⟩

/-- A concrete real interpolator object. -/
def rInterp : Interp ℝ ℕ := ⟨nearestStr, [], []⟩

/-- A concrete initial loop state (fresh-run shape). -/
def stQ : LoopState ℚ ℕ Unit Unit where
  mesh := meshQ
  ind_active := [true]
  model_map := ⟨meshQ, [true], 0⟩
  model := [0]
  ind_object := [true]
  i := 0
  diff := 10
  av_diff_list := []
  obj_hist := []
  recv_hist := []
  src_hist := []
  ef_old := none
  ef_cur := none

/-- Concrete `iterator` parameters: a block object with the non-default
rotation axis `'y'`. -/
def PQ : IterParams ℚ ℕ Unit Unit Unit Unit Unit where
  domain := ()
  surface := ()
  cell_width := ()
  objct := [0]
  coordinates := ()
  receiver_locations := [0]
  source_locations := [0]
  survey := ()
  par_background := 0
  par_object := 7
  frequency := 1
  omega := 1
  parameter := resistivityStr
  interpolation := rbfStr
  type_object := blockStr
  lim_iterations := 5
  factor_object := 2
  factor_receiver := 3
  factor_source := 3
  refine_percentage := 1 / 20
  axis := yStr
  degrees_rad := 0
  radius := 1

/-- Concrete `iteratornonobject` parameters. -/
def QQ : NonObjParams ℚ ℕ Unit Unit Unit where
  domain := ()
  cell_width := ()
  landscape := [0]
  receiver_locations := [0]
  source_locations := [0]
  survey := ()
  resistivity_function := fun _ => [0]
  frequency := 1
  omega := 1
  parameter := resistivityStr
  interpolation := rbfStr
  lim_iterations := 5
  factor_receiver := 2
  factor_source := 2
  factor_landscape := 2
  refine_percentage := 1 / 20
  par_inactive := 100000000

/-- The result of a concrete converging `iterator` run (two iterations,
second relative difference 0). -/
def runC3 : IterResult ℚ ℕ Unit Unit :=
  (iterator qEnv meshQ () () () [0] () [0] [0] () 0 7 [] 1 1 resistivityStr
      rbfStr blockStr 5 2 3 3 (1 / 20) yStr 0 1 none none none [(0, 0)]
      none none none).getD (.converged meshQ qInterp qInterp qInterp [])

/-- The claim's curl formula `curl = Sm - i*omega*b` in complex
arithmetic, entry by entry. -/
def curlOf (omega : R) (Sm b : List (Cx R)) : List (Cx R) :=
  List.zipWith (fun s bb => s - Cx.I * Cx.ofReal omega * bb) Sm b

/-- The strategy actually selected by the `interpolation` string (the
source falls through to nearest for any unrecognized name). -/
def chooseStrategy (interpolation : String) : String :=
  if interpolation = rbfStr then rbfStr
  else if interpolation = linearStr then linearStr
  else nearestStr

/-! Helper lemmas shared by the claim theorems. -/

theorem pySlice_zero (l : List α) (a : Nat) : pySlice l 0 a = l.take a := by
  simp [pySlice]

theorem pySlice_length (l : List α) (a b : Nat) (hab : a ≤ b)
    (hb : b ≤ l.length) : (pySlice l a b).length = b - a := by
  simp [pySlice, Nat.min_eq_left hb]

theorem pySlice_concat3 (l : List α) (a b c : Nat)
    (h : l.length = a + b + c) :
    pySlice l 0 a ++ pySlice l a (a + b) ++ pySlice l (a + b) (a + b + c) = l := by
  have h1 : pySlice l 0 a = (l.take (a + b)).take a := by
    simp [pySlice, List.take_take, Nat.min_eq_left (Nat.le_add_right a b)]
  have h2 : pySlice l (a + b) (a + b + c) = l.drop (a + b) := by
    have : l.take (a + b + c) = l := List.take_of_length_le (le_of_eq h)
    simp [pySlice, this]
  rw [h1, h2, pySlice]
  rw [List.take_append_drop a (l.take (a + b)), List.take_append_drop]

theorem foldl_refine_refinements (l : List (List Pt)) (m : OMesh Pt D W) :
    (l.foldl refine_at_locations m).refinements = m.refinements ++ l := by
  induction l generalizing m with
  | nil => simp
  | cons x xs ih =>
    simp [List.foldl_cons, ih, refine_at_locations, List.append_assoc]

theorem loopDiffUpdate_skip (env : Env R Pt D W S V C)
    (st : LoopState R Pt D W) (a1 a2 a3 : List Pt)
    (efNew : InterpTriple R Pt) (h0 : st.i = 0) :
    loopDiffUpdate env true st a1 a2 a3 efNew = some (st.diff, st.av_diff_list) := by
  simp [loopDiffUpdate, h0]

theorem loopDiffUpdate_compute (env : Env R Pt D W S V C) (fresh : Bool)
    (st : LoopState R Pt D W) (a1 a2 a3 : List Pt)
    (efNew : InterpTriple R Pt) (d : R) (av : List (Nat × R))
    (h : loopDiffUpdate env fresh st a1 a2 a3 efNew = some (d, av))
    (hni : ¬(fresh = true ∧ st.i = 0)) :
    ∃ old, st.ef_old = some old ∧
      d = ((a1.map (relDiffPoint env old efNew) ++
            a2.map (relDiffPoint env old efNew) ++
            a3.map (relDiffPoint env old efNew)).sum /
           ((a1.map (relDiffPoint env old efNew) ++
             a2.map (relDiffPoint env old efNew) ++
             a3.map (relDiffPoint env old efNew)).length : R)) ∧
      av = st.av_diff_list ++ [(st.i + 1, d)] := by
  rw [loopDiffUpdate, if_neg hni] at h
  cases hold : st.ef_old with
  | none => rw [hold] at h; exact absurd h (by simp)
  | some old =>
    rw [hold] at h
    refine ⟨old, rfl, ?_⟩
    simp only [Option.some.injEq, Prod.mk.injEq] at h
    obtain ⟨hd, hav⟩ := h
    exact ⟨hd.symm, by rw [← hav, hd]⟩

theorem loopDiffUpdate_av (env : Env R Pt D W S V C) (fresh : Bool)
    (st : LoopState R Pt D W) (a1 a2 a3 : List Pt)
    (efNew : InterpTriple R Pt) (d : R) (av : List (Nat × R))
    (h : loopDiffUpdate env fresh st a1 a2 a3 efNew = some (d, av)) :
    av = st.av_diff_list ∨ av = st.av_diff_list ++ [(st.i + 1, d)] := by
  by_cases hc : fresh = true ∧ st.i = 0
  · rw [loopDiffUpdate, if_pos hc] at h
    simp only [Option.some.injEq, Prod.mk.injEq] at h
    exact Or.inl h.2.symm
  · obtain ⟨old, _, _, hav⟩ := loopDiffUpdate_compute env fresh st a1 a2 a3 efNew d av h hc
    exact Or.inr hav

theorem loopDiffUpdate_av_append (env : Env R Pt D W S V C) (fresh : Bool)
    (st : LoopState R Pt D W) (a1 a2 a3 : List Pt)
    (efNew : InterpTriple R Pt) (d : R) (av : List (Nat × R))
    (h : loopDiffUpdate env fresh st a1 a2 a3 efNew = some (d, av))
    (hni : ¬(fresh = true ∧ st.i = 0)) :
    av = st.av_diff_list ++ [(st.i + 1, d)] :=
  (loopDiffUpdate_compute env fresh st a1 a2 a3 efNew d av h hni).choose_spec.2.2

theorem amrLoop_succ_elim (body : LoopState R Pt D W → Option (LoopState R Pt D W))
    (cap fuel : Nat) (st st1 : LoopState R Pt D W) (n : Nat)
    (h : amrLoop body cap (fuel + 1) st = some (st1, n)) :
    (¬(st.diff > 1 / 100 ∧ st.i < cap) ∧ st1 = st ∧ n = 0) ∨
    ((st.diff > 1 / 100 ∧ st.i < cap) ∧ ∃ s2 m, body st = some s2 ∧
      amrLoop body cap fuel s2 = some (st1, m) ∧ n = m + 1) := by
  rw [amrLoop] at h
  by_cases hc : st.diff > 1 / 100 ∧ st.i < cap
  · rw [if_pos hc] at h
    cases hb : body st with
    | none => simp only [hb] at h; exact Option.noConfusion h
    | some s2 =>
      simp only [hb] at h
      cases hl : amrLoop body cap fuel s2 with
      | none => simp only [hl] at h; exact Option.noConfusion h
      | some p =>
        obtain ⟨st2, m⟩ := p
        simp only [hl, Option.some.injEq, Prod.mk.injEq] at h
        exact Or.inr ⟨hc, s2, m, rfl, by rw [hl, h.1], by omega⟩
  · rw [if_neg hc] at h
    simp only [Option.some.injEq, Prod.mk.injEq] at h
    exact Or.inl ⟨hc, h.1.symm, h.2.symm⟩

theorem amrLoop_zero_elim (body : LoopState R Pt D W → Option (LoopState R Pt D W))
    (cap : Nat) (st st1 : LoopState R Pt D W) (n : Nat)
    (h : amrLoop body cap 0 st = some (st1, n)) : st1 = st ∧ n = 0 := by
  rw [amrLoop] at h
  simp only [Option.some.injEq, Prod.mk.injEq] at h
  exact ⟨h.1.symm, h.2.symm⟩

theorem amrLoop_i (body : LoopState R Pt D W → Option (LoopState R Pt D W))
    (cap : Nat) (hbody : ∀ s s1, body s = some s1 → s1.i = s.i + 1) :
    ∀ fuel st st1 n, amrLoop body cap fuel st = some (st1, n) →
      st1.i = st.i + n := by
  intro fuel
  induction fuel with
  | zero =>
    intro st st1 n h
    obtain ⟨h1, h2⟩ := amrLoop_zero_elim body cap st st1 n h
    rw [h1, h2]; omega
  | succ fuel ih =>
    intro st st1 n h
    rcases amrLoop_succ_elim body cap fuel st st1 n h with
      ⟨_, h1, h2⟩ | ⟨_, s2, m, hb, hl, hn⟩
    · rw [h1, h2]; omega
    · have e1 := ih s2 st1 m hl
      have e2 := hbody st s2 hb
      omega

theorem amrLoop_count (body : LoopState R Pt D W → Option (LoopState R Pt D W))
    (cap : Nat) (hbody : ∀ s s1, body s = some s1 → s1.i = s.i + 1) :
    ∀ fuel st st1 n, amrLoop body cap fuel st = some (st1, n) →
      n ≤ cap - st.i := by
  intro fuel
  induction fuel with
  | zero =>
    intro st st1 n h
    obtain ⟨_, h2⟩ := amrLoop_zero_elim body cap st st1 n h
    omega
  | succ fuel ih =>
    intro st st1 n h
    rcases amrLoop_succ_elim body cap fuel st st1 n h with
      ⟨_, _, h2⟩ | ⟨hc, s2, m, hb, hl, hn⟩
    · omega
    · have e1 := ih s2 st1 m hl
      have e2 := hbody st s2 hb
      have e3 := hc.2
      omega

theorem amrLoop_exit (body : LoopState R Pt D W → Option (LoopState R Pt D W))
    (cap : Nat) (hbody : ∀ s s1, body s = some s1 → s1.i = s.i + 1) :
    ∀ fuel st st1 n, cap ≤ st.i + fuel →
      amrLoop body cap fuel st = some (st1, n) →
      st1.diff ≤ 1 / 100 ∨ cap ≤ st1.i := by
  intro fuel
  induction fuel with
  | zero =>
    intro st st1 n hf h
    obtain ⟨h1, _⟩ := amrLoop_zero_elim body cap st st1 n h
    right; rw [h1]; omega
  | succ fuel ih =>
    intro st st1 n hf h
    rcases amrLoop_succ_elim body cap fuel st st1 n h with
      ⟨hc, h1, _⟩ | ⟨_, s2, m, hb, hl, _⟩
    · rw [h1]
      rcases not_and_or.mp hc with hd | hi
      · exact Or.inl (not_lt.mp hd)
      · exact Or.inr (not_lt.mp hi)
    · have e2 := hbody st s2 hb
      exact ih s2 st1 m (by omega) hl

theorem amrLoop_hist (body : LoopState R Pt D W → Option (LoopState R Pt D W))
    (cap : Nat)
    (hbody : ∀ s s1, body s = some s1 →
      s1.obj_hist.length = s.obj_hist.length + 1 ∧
      s1.recv_hist.length = s.recv_hist.length + 1 ∧
      s1.src_hist.length = s.src_hist.length + 1) :
    ∀ fuel st st1 n, amrLoop body cap fuel st = some (st1, n) →
      st1.obj_hist.length = st.obj_hist.length + n ∧
      st1.recv_hist.length = st.recv_hist.length + n ∧
      st1.src_hist.length = st.src_hist.length + n := by
  intro fuel
  induction fuel with
  | zero =>
    intro st st1 n h
    obtain ⟨h1, h2⟩ := amrLoop_zero_elim body cap st st1 n h
    rw [h1, h2]; exact ⟨rfl, rfl, rfl⟩
  | succ fuel ih =>
    intro st st1 n h
    rcases amrLoop_succ_elim body cap fuel st st1 n h with
      ⟨_, h1, h2⟩ | ⟨_, s2, m, hb, hl, hn⟩
    · rw [h1, h2]; exact ⟨rfl, rfl, rfl⟩
    · obtain ⟨e1, e2, e3⟩ := ih s2 st1 m hl
      obtain ⟨f1, f2, f3⟩ := hbody st s2 hb
      refine ⟨?_, ?_, ?_⟩ <;> omega

theorem amrLoop_av_all (body : LoopState R Pt D W → Option (LoopState R Pt D W))
    (cap : Nat)
    (hbody : ∀ s s1, body s = some s1 →
      s1.av_diff_list.length = s.av_diff_list.length + 1) :
    ∀ fuel st st1 n, amrLoop body cap fuel st = some (st1, n) →
      st1.av_diff_list.length = st.av_diff_list.length + n := by
  intro fuel
  induction fuel with
  | zero =>
    intro st st1 n h
    obtain ⟨h1, h2⟩ := amrLoop_zero_elim body cap st st1 n h
    rw [h1, h2]; omega
  | succ fuel ih =>
    intro st st1 n h
    rcases amrLoop_succ_elim body cap fuel st st1 n h with
      ⟨_, h1, h2⟩ | ⟨_, s2, m, hb, hl, hn⟩
    · rw [h1, h2]; omega
    · have e1 := ih s2 st1 m hl
      have e2 := hbody st s2 hb
      omega

theorem amrLoop_av_pos (body : LoopState R Pt D W → Option (LoopState R Pt D W))
    (cap : Nat)
    (hbody_i : ∀ s s1, body s = some s1 → s1.i = s.i + 1)
    (hbody_av : ∀ s s1, body s = some s1 → 0 < s.i →
      s1.av_diff_list.length = s.av_diff_list.length + 1) :
    ∀ fuel st st1 n, 0 < st.i → amrLoop body cap fuel st = some (st1, n) →
      st1.av_diff_list.length = st.av_diff_list.length + n := by
  intro fuel
  induction fuel with
  | zero =>
    intro st st1 n hpos h
    obtain ⟨h1, h2⟩ := amrLoop_zero_elim body cap st st1 n h
    rw [h1, h2]; omega
  | succ fuel ih =>
    intro st st1 n hpos h
    rcases amrLoop_succ_elim body cap fuel st st1 n h with
      ⟨_, h1, h2⟩ | ⟨_, s2, m, hb, hl, hn⟩
    · rw [h1, h2]; omega
    · have e1 := ih s2 st1 m (by have := hbody_i st s2 hb; omega) hl
      have e2 := hbody_av st s2 hb hpos
      omega

theorem amrLoop_av_fresh (body : LoopState R Pt D W → Option (LoopState R Pt D W))
    (cap : Nat)
    (hbody_i : ∀ s s1, body s = some s1 → s1.i = s.i + 1)
    (hbody_av0 : ∀ s s1, body s = some s1 → s.i = 0 →
      s1.av_diff_list = s.av_diff_list)
    (hbody_av : ∀ s s1, body s = some s1 → 0 < s.i →
      s1.av_diff_list.length = s.av_diff_list.length + 1) :
    ∀ fuel st st1 n, st.i = 0 → amrLoop body cap fuel st = some (st1, n) →
      (n = 0 ∧ st1.av_diff_list = st.av_diff_list) ∨
      (0 < n ∧ st1.av_diff_list.length + 1 = st.av_diff_list.length + n) := by
  intro fuel st st1 n h0 h
  cases fuel with
  | zero =>
    obtain ⟨h1, h2⟩ := amrLoop_zero_elim body cap st st1 n h
    exact Or.inl ⟨h2, by rw [h1]⟩
  | succ fuel =>
    rcases amrLoop_succ_elim body cap fuel st st1 n h with
      ⟨_, h1, h2⟩ | ⟨_, s2, m, hb, hl, hn⟩
    · exact Or.inl ⟨h2, by rw [h1]⟩
    · have e0 := hbody_av0 st s2 hb h0
      have e1 := amrLoop_av_pos body cap hbody_i hbody_av fuel s2 st1 m
        (by have := hbody_i st s2 hb; omega) hl
      exact Or.inr ⟨by omega, by rw [e0] at e1; omega⟩

theorem iteratorBody_shape (env : Env R Pt D W S V C)
    (P : IterParams R Pt D W S V C) (fresh : Bool)
    (st st1 : LoopState R Pt D W)
    (h : iteratorBody env P fresh st = some st1) :
    st1.i = st.i + 1 ∧
    (∃ c1, st1.obj_hist = st.obj_hist ++ [c1]) ∧
    (∃ c2, st1.recv_hist = st.recv_hist ++ [c2]) ∧
    (∃ c3, st1.src_hist = st.src_hist ++ [c3]) ∧
    st1.mesh.finalized = true ∧
    st1.mesh.refinements =
      [P.source_locations, P.receiver_locations] ++ st1.obj_hist ++
        st1.recv_hist ++ st1.src_hist ∧
    (∃ d av,
      loopDiffUpdate env fresh st
        (env.search_area_object st.mesh P.objct P.factor_object)
        (env.search_area_receivers st.mesh P.receiver_locations P.factor_receiver)
        (env.search_area_sources st.mesh P.source_locations P.factor_source)
        ((estimate_curl_electric_field env st.mesh P.survey st.model_map
            st.model P.interpolation P.frequency P.omega P.parameter).2.2.2.1,
         (estimate_curl_electric_field env st.mesh P.survey st.model_map
            st.model P.interpolation P.frequency P.omega P.parameter).2.2.2.2.1,
         (estimate_curl_electric_field env st.mesh P.survey st.model_map
            st.model P.interpolation P.frequency P.omega P.parameter).2.2.2.2.2) =
        some (d, av) ∧
      st1.diff = d ∧ st1.av_diff_list = av) := by
  unfold iteratorBody at h
  simp only [Option.bind_eq_some] at h
  obtain ⟨du, hdu, c1, hc1, c2, hc2, c3, hc3, hmk⟩ := h
  obtain ⟨d, av⟩ := du
  simp only [Option.some.injEq] at hmk
  subst hmk
  refine ⟨rfl, ⟨c1, rfl⟩, ⟨c2, rfl⟩, ⟨c3, rfl⟩, rfl, ?_, d, av, hdu, rfl, rfl⟩
  simp [OMesh.finalize, foldl_refine_refinements, refine_at_locations,
    create_octree_mesh, List.append_assoc]

theorem iteratornonobjectBody_shape (env : Env R Pt D W S V C)
    (Q : NonObjParams R Pt D W V) (fresh : Bool)
    (st st1 : LoopState R Pt D W)
    (h : iteratornonobjectBody env Q fresh st = some st1) :
    st1.i = st.i + 1 ∧
    (∃ c1, st1.obj_hist = st.obj_hist ++ [c1]) ∧
    (∃ c2, st1.recv_hist = st.recv_hist ++ [c2]) ∧
    (∃ c3, st1.src_hist = st.src_hist ++ [c3]) ∧
    st1.mesh.finalized = true ∧
    st1.mesh.refinements =
      [Q.source_locations, Q.receiver_locations] ++ st1.obj_hist ++
        st1.recv_hist ++ st1.src_hist ∧
    (∃ d av,
      loopDiffUpdate env fresh st
        (env.search_area_landscape st.mesh Q.domain Q.landscape Q.factor_landscape)
        (env.search_area_receivers st.mesh Q.receiver_locations Q.factor_receiver)
        (env.search_area_sources st.mesh Q.source_locations Q.factor_source)
        ((estimate_curl_electric_field env st.mesh Q.survey st.model_map
            st.model Q.interpolation Q.frequency Q.omega Q.parameter).2.2.2.1,
         (estimate_curl_electric_field env st.mesh Q.survey st.model_map
            st.model Q.interpolation Q.frequency Q.omega Q.parameter).2.2.2.2.1,
         (estimate_curl_electric_field env st.mesh Q.survey st.model_map
            st.model Q.interpolation Q.frequency Q.omega Q.parameter).2.2.2.2.2) =
        some (d, av) ∧
      st1.diff = d ∧ st1.av_diff_list = av) := by
  unfold iteratornonobjectBody at h
  simp only [Option.bind_eq_some] at h
  obtain ⟨du, hdu, c1, hc1, c2, hc2, c3, hc3, hmk⟩ := h
  obtain ⟨d, av⟩ := du
  simp only [Option.some.injEq] at hmk
  subst hmk
  refine ⟨rfl, ⟨c1, rfl⟩, ⟨c2, rfl⟩, ⟨c3, rfl⟩, rfl, ?_, d, av, hdu, rfl, rfl⟩
  simp [OMesh.finalize, foldl_refine_refinements, refine_at_locations,
    create_octree_mesh, List.append_assoc]

theorem iteratorBody_rebuild (env : Env R Pt D W S V C)
    (P : IterParams R Pt D W S V C) (fresh : Bool)
    (st st1 : LoopState R Pt D W)
    (h : iteratorBody env P fresh st = some st1) :
    st1.ind_active = env.surface2ind_topo st1.mesh P.surface ∧
    st1.ind_object =
      (if P.type_object = blockStr then
        env.get_ind_block st1.mesh st1.ind_active P.coordinates xStr 0
      else if P.type_object = sphereStr then
        env.get_ind_sphere st1.mesh st1.ind_active P.coordinates P.radius
      else st.ind_object) ∧
    st1.model =
      maskAssign (List.replicate (st1.ind_active.count true) P.par_background)
        st1.ind_object P.par_object ∧
    st1.model_map = ⟨st1.mesh, st1.ind_active, P.par_background⟩ := by
  unfold iteratorBody at h
  simp only [Option.bind_eq_some] at h
  obtain ⟨du, hdu, c1, hc1, c2, hc2, c3, hc3, hmk⟩ := h
  simp only [Option.some.injEq] at hmk
  subst hmk
  exact ⟨rfl, rfl, rfl, rfl⟩

theorem sortPairs_getElem (e : List R) (p : Nat × R)
    (hp : p ∈ List.insertionSort (argRel R) e.enum) : e[p.1]? = some p.2 := by
  have hmem : p ∈ e.enum := (List.perm_insertionSort (argRel R) e.enum).mem_iff.mp hp
  obtain ⟨i, x⟩ := p
  exact List.mk_mem_enum_iff_getElem?.mp hmem

theorem sortPairs_cross (e : List R) (k : Nat)
    (p : Nat × R) (hp : p ∈ (List.insertionSort (argRel R) e.enum).drop k)
    (q : Nat × R) (hq : q ∈ (List.insertionSort (argRel R) e.enum).take k) :
    q.2 ≤ p.2 := by
  have hs : List.Sorted (argRel R) (List.insertionSort (argRel R) e.enum) :=
    List.sorted_insertionSort (argRel R) e.enum
  rw [← List.take_append_drop k (List.insertionSort (argRel R) e.enum),
    List.Sorted, List.pairwise_append] at hs
  exact hs.2.2 q hq p hp

/-- Success-path characterization of `estimate_error`: when the selection
count `n = int(np.ceil(p*N))` satisfies `1 ≤ n ≤ N`, the call returns the
points of the last `n` entries of the error argsort. -/
theorem estimate_error_eq (env : Env R Pt D W S V C) (search_area : List Pt)
    (c1 c2 c3 e1 e2 e3 : Interp R Pt) (p : R)
    (hn1 : 1 ≤ Int.ceil (p * (search_area.length : R)))
    (hnN : Int.ceil (p * (search_area.length : R)) ≤ (search_area.length : Int)) :
    estimate_error env search_area c1 c2 c3 e1 e2 e3 p =
      some (((List.insertionSort (argRel R)
          (search_area.map fun cell =>
            compute_cell_error env cell c1 c2 c3 e1 e2 e3).enum).drop
          (search_area.length -
            (Int.ceil (p * (search_area.length : R))).toNat)).map
        fun pr => search_area.getD pr.1 default) := by
  have hguard : -(search_area.length : Int) ≤
      -Int.ceil (p * (search_area.length : R)) ∧
      -Int.ceil (p * (search_area.length : R)) ≤ (search_area.length : Int) - 1 := by
    omega
  rw [estimate_error, if_pos hguard]
  have hneg : ¬(0 ≤ -Int.ceil (p * (search_area.length : R))) := by omega
  rw [pySliceFrom, if_neg hneg]
  have hlen : (argsortAsc (search_area.map fun cell =>
      compute_cell_error env cell c1 c2 c3 e1 e2 e3)).length =
      search_area.length := by
    rw [argsortAsc, List.length_map, List.length_insertionSort, List.enum_length,
      List.length_map]
  rw [hlen, neg_neg, argsortAsc, ← List.map_drop, List.map_map]
  rfl

theorem estimate_curl_eq (env : Env R Pt D W S V C) (mesh : OMesh Pt D W)
    (survey : V) (model_map : MMap R Pt D W) (model : List R)
    (interpolation : String) (frequency omega : R) (parameter : String) :
    estimate_curl_electric_field env mesh survey model_map model
      interpolation frequency omega parameter =
    (⟨chooseStrategy interpolation, (env.meshData mesh).faces_x,
        pySlice (curlOf omega
          (env.sim mesh survey model_map model parameter frequency).sourceTerm.1
          (env.sim mesh survey model_map model parameter frequency).bSolution)
          0 (env.meshData mesh).n_faces_x⟩,
     ⟨chooseStrategy interpolation, (env.meshData mesh).faces_y,
        pySlice (curlOf omega
          (env.sim mesh survey model_map model parameter frequency).sourceTerm.1
          (env.sim mesh survey model_map model parameter frequency).bSolution)
          (env.meshData mesh).n_faces_x
          ((env.meshData mesh).n_faces_x + (env.meshData mesh).n_faces_y)⟩,
     ⟨chooseStrategy interpolation, (env.meshData mesh).faces_z,
        pySlice (curlOf omega
          (env.sim mesh survey model_map model parameter frequency).sourceTerm.1
          (env.sim mesh survey model_map model parameter frequency).bSolution)
          ((env.meshData mesh).n_faces_x + (env.meshData mesh).n_faces_y)
          ((env.meshData mesh).n_faces_x + (env.meshData mesh).n_faces_y +
            (env.meshData mesh).n_faces_z)⟩,
     ⟨chooseStrategy interpolation, (env.meshData mesh).edges_x,
        pySlice (env.sim mesh survey model_map model parameter frequency).eSolution
          0 (env.meshData mesh).n_edges_x⟩,
     ⟨chooseStrategy interpolation, (env.meshData mesh).edges_y,
        pySlice (env.sim mesh survey model_map model parameter frequency).eSolution
          (env.meshData mesh).n_edges_x
          ((env.meshData mesh).n_edges_x + (env.meshData mesh).n_edges_y)⟩,
     ⟨chooseStrategy interpolation, (env.meshData mesh).edges_z,
        pySlice (env.sim mesh survey model_map model parameter frequency).eSolution
          ((env.meshData mesh).n_edges_x + (env.meshData mesh).n_edges_y)
          ((env.meshData mesh).n_edges_x + (env.meshData mesh).n_edges_y +
            (env.meshData mesh).n_edges_z)⟩) := by
  by_cases h1 : interpolation = rbfStr
  · subst h1
    simp [estimate_curl_electric_field, chooseStrategy, curlOf,
      interpolate_rbf]
  · by_cases h2 : interpolation = linearStr
    · subst h2
      have hne : ¬(linearStr = rbfStr) := by decide
      simp [estimate_curl_electric_field, chooseStrategy, curlOf, hne,
        interpolate_linear]
    · simp [estimate_curl_electric_field, chooseStrategy, curlOf, h1, h2,
        interpolate_nearest]

/-- C1: for every mesh, survey, model map and model (given the external
library invariants that the solver outputs have one entry per face resp.
edge), `estimate_curl_electric_field` computes the face curl as
`curl = Sm - i*omega*b` in complex arithmetic, splits it into three
consecutive blocks of sizes `n_faces_x`, `n_faces_y`, `n_faces_z` in the
order x, y, z (the blocks concatenate back to the full curl array),
splits the independently solved electric field into three consecutive
edge blocks of sizes `n_edges_x`, `n_edges_y`, `n_edges_z` in the same
order, and returns six interpolators built with the selected strategy
from those blocks and the face/edge locations:
curl_x, curl_y, curl_z, E_x, E_y, E_z. -/
theorem C1_estimate_curl_splits (env : Env R Pt D W S V C)
    (mesh : OMesh Pt D W) (survey : V) (model_map : MMap R Pt D W)
    (model : List R) (interpolation : String) (frequency omega : R)
    (parameter : String)
    (hSm : (env.sim mesh survey model_map model parameter frequency).sourceTerm.1.length =
      (env.meshData mesh).n_faces_x + (env.meshData mesh).n_faces_y +
        (env.meshData mesh).n_faces_z)
    (hb : (env.sim mesh survey model_map model parameter frequency).bSolution.length =
      (env.meshData mesh).n_faces_x + (env.meshData mesh).n_faces_y +
        (env.meshData mesh).n_faces_z)
    (he : (env.sim mesh survey model_map model parameter frequency).eSolution.length =
      (env.meshData mesh).n_edges_x + (env.meshData mesh).n_edges_y +
        (env.meshData mesh).n_edges_z) :
    ((estimate_curl_electric_field env mesh survey model_map model
        interpolation frequency omega parameter).1.values ++
     (estimate_curl_electric_field env mesh survey model_map model
        interpolation frequency omega parameter).2.1.values ++
     (estimate_curl_electric_field env mesh survey model_map model
        interpolation frequency omega parameter).2.2.1.values =
       curlOf omega
         (env.sim mesh survey model_map model parameter frequency).sourceTerm.1
         (env.sim mesh survey model_map model parameter frequency).bSolution ∧
     (estimate_curl_electric_field env mesh survey model_map model
        interpolation frequency omega parameter).1.values.length =
       (env.meshData mesh).n_faces_x ∧
     (estimate_curl_electric_field env mesh survey model_map model
        interpolation frequency omega parameter).2.1.values.length =
       (env.meshData mesh).n_faces_y ∧
     (estimate_curl_electric_field env mesh survey model_map model
        interpolation frequency omega parameter).2.2.1.values.length =
       (env.meshData mesh).n_faces_z) ∧
    ((estimate_curl_electric_field env mesh survey model_map model
        interpolation frequency omega parameter).2.2.2.1.values ++
     (estimate_curl_electric_field env mesh survey model_map model
        interpolation frequency omega parameter).2.2.2.2.1.values ++
     (estimate_curl_electric_field env mesh survey model_map model
        interpolation frequency omega parameter).2.2.2.2.2.values =
       (env.sim mesh survey model_map model parameter frequency).eSolution ∧
     (estimate_curl_electric_field env mesh survey model_map model
        interpolation frequency omega parameter).2.2.2.1.values.length =
       (env.meshData mesh).n_edges_x ∧
     (estimate_curl_electric_field env mesh survey model_map model
        interpolation frequency omega parameter).2.2.2.2.1.values.length =
       (env.meshData mesh).n_edges_y ∧
     (estimate_curl_electric_field env mesh survey model_map model
        interpolation frequency omega parameter).2.2.2.2.2.values.length =
       (env.meshData mesh).n_edges_z) ∧
    ((estimate_curl_electric_field env mesh survey model_map model
        interpolation frequency omega parameter).1.points =
       (env.meshData mesh).faces_x ∧
     (estimate_curl_electric_field env mesh survey model_map model
        interpolation frequency omega parameter).2.1.points =
       (env.meshData mesh).faces_y ∧
     (estimate_curl_electric_field env mesh survey model_map model
        interpolation frequency omega parameter).2.2.1.points =
       (env.meshData mesh).faces_z ∧
     (estimate_curl_electric_field env mesh survey model_map model
        interpolation frequency omega parameter).2.2.2.1.points =
       (env.meshData mesh).edges_x ∧
     (estimate_curl_electric_field env mesh survey model_map model
        interpolation frequency omega parameter).2.2.2.2.1.points =
       (env.meshData mesh).edges_y ∧
     (estimate_curl_electric_field env mesh survey model_map model
        interpolation frequency omega parameter).2.2.2.2.2.points =
       (env.meshData mesh).edges_z) ∧
    ((estimate_curl_electric_field env mesh survey model_map model
        interpolation frequency omega parameter).1.strategy =
       chooseStrategy interpolation ∧
     (estimate_curl_electric_field env mesh survey model_map model
        interpolation frequency omega parameter).2.2.2.2.2.strategy =
       chooseStrategy interpolation) := by
  have hcl : (curlOf omega
      (env.sim mesh survey model_map model parameter frequency).sourceTerm.1
      (env.sim mesh survey model_map model parameter frequency).bSolution).length =
      (env.meshData mesh).n_faces_x + (env.meshData mesh).n_faces_y +
        (env.meshData mesh).n_faces_z := by
    rw [curlOf, List.length_zipWith, hSm, hb, Nat.min_self]
  rw [estimate_curl_eq]
  refine ⟨⟨?_, ?_, ?_, ?_⟩, ⟨?_, ?_, ?_, ?_⟩,
    ⟨rfl, rfl, rfl, rfl, rfl, rfl⟩, rfl, rfl⟩
  · exact pySlice_concat3 _ _ _ _ hcl
  · rw [pySlice_length _ _ _ (Nat.zero_le _) (by omega)]; omega
  · rw [pySlice_length _ _ _ (by omega) (by omega)]; omega
  · rw [pySlice_length _ _ _ (by omega) (by omega)]; omega
  · exact pySlice_concat3 _ _ _ _ he
  · rw [pySlice_length _ _ _ (Nat.zero_le _) (by omega)]; omega
  · rw [pySlice_length _ _ _ (by omega) (by omega)]; omega
  · rw [pySlice_length _ _ _ (by omega) (by omega)]; omega

/-- Witness for C1 at a concrete environment with one face and one edge
per axis and three-entry solver outputs. -/
theorem C1_estimate_curl_splits_witness :
    (env1.sim meshQ () ⟨meshQ, [], 0⟩ [] resistivityStr 1).sourceTerm.1.length =
      (env1.meshData meshQ).n_faces_x + (env1.meshData meshQ).n_faces_y +
        (env1.meshData meshQ).n_faces_z ∧
    (estimate_curl_electric_field env1 meshQ () ⟨meshQ, [], 0⟩ [] rbfStr 1 1
        resistivityStr).1.values ++
      (estimate_curl_electric_field env1 meshQ () ⟨meshQ, [], 0⟩ [] rbfStr 1 1
        resistivityStr).2.1.values ++
      (estimate_curl_electric_field env1 meshQ () ⟨meshQ, [], 0⟩ [] rbfStr 1 1
        resistivityStr).2.2.1.values =
      curlOf 1 (env1.sim meshQ () ⟨meshQ, [], 0⟩ [] resistivityStr 1).sourceTerm.1
        (env1.sim meshQ () ⟨meshQ, [], 0⟩ [] resistivityStr 1).bSolution :=
  ⟨by decide,
   (C1_estimate_curl_splits env1 meshQ () ⟨meshQ, [], 0⟩ [] rbfStr 1 1
      resistivityStr (by decide) (by decide) (by decide)).1.1⟩

theorem sortPairs_point (env : Env R Pt D W S V C) (search_area : List Pt)
    (c1 c2 c3 e1 e2 e3 : Interp R Pt) (pr : Nat × R)
    (hpr : pr ∈ List.insertionSort (argRel R)
      ((search_area.map fun cell =>
        compute_cell_error env cell c1 c2 c3 e1 e2 e3).enum)) :
    pr.1 < search_area.length ∧
    compute_cell_error env (search_area.getD pr.1 default) c1 c2 c3 e1 e2 e3 = pr.2 := by
  have hidx := sortPairs_getElem
    (search_area.map fun cell => compute_cell_error env cell c1 c2 c3 e1 e2 e3)
    pr hpr
  rw [List.getElem?_map] at hidx
  cases hsa : search_area[pr.1]? with
  | none => rw [hsa] at hidx; exact absurd hidx (by simp)
  | some pt =>
    rw [hsa] at hidx
    simp only [Option.map_some', Option.some.injEq] at hidx
    have hlt : pr.1 < search_area.length := by
      by_contra hge
      rw [List.getElem?_eq_none (by omega)] at hsa
      exact Option.noConfusion hsa
    refine ⟨hlt, ?_⟩
    rw [List.getD_eq_getElem?_getD, hsa]
    exact hidx

/-- C2 counterexample: for a one-point search area and
`refine_percentage = 0`, the claim demands `ceil(0*1) = 0` returned
points, but the code's Python slice `[-0:]` selects the whole index array,
so the single point is returned. -/
theorem C2_counterexample :
    estimate_error qEnv [0] qInterp qInterp qInterp qInterp qInterp qInterp 0 =
      some [0] ∧
    Int.ceil ((0 : ℚ) * (([0] : List ℕ).length : ℚ)) = 0 ∧
    (some [(0 : ℕ)] : Option (List ℕ)).map List.length ≠ some 0 := by
  refine ⟨by with_unfolding_all decide, by with_unfolding_all decide, by decide⟩

/-- C2 amended: for a search area of `N ≥ 1` points and any
`refine_percentage p` whose selection count `n = ceil(p*N)` satisfies
`1 ≤ n ≤ N` (the code raises outside that range, and returns all `N`
points when `n = 0`), `estimate_error` returns exactly `n` points of the
search area — the points of the last `n` entries of the error argsort —
and the error of every returned point is ≥ the error of every
non-returned point (the entries before the cut), the two index groups
together being a permutation of all `N` indices. -/
theorem C2_estimate_error_selects (env : Env R Pt D W S V C)
    (search_area : List Pt) (c1 c2 c3 e1 e2 e3 : Interp R Pt) (p : R)
    (hn1 : 1 ≤ Int.ceil (p * (search_area.length : R)))
    (hnN : Int.ceil (p * (search_area.length : R)) ≤ (search_area.length : Int)) :
    estimate_error env search_area c1 c2 c3 e1 e2 e3 p =
      some (((List.insertionSort (argRel R)
          ((search_area.map fun cell =>
            compute_cell_error env cell c1 c2 c3 e1 e2 e3).enum)).drop
          (search_area.length -
            (Int.ceil (p * (search_area.length : R))).toNat)).map
        fun pr => search_area.getD pr.1 default) ∧
    (((List.insertionSort (argRel R)
        ((search_area.map fun cell =>
          compute_cell_error env cell c1 c2 c3 e1 e2 e3).enum)).drop
        (search_area.length -
          (Int.ceil (p * (search_area.length : R))).toNat)).map
      fun pr => search_area.getD pr.1 default).length =
      (Int.ceil (p * (search_area.length : R))).toNat ∧
    (∀ x ∈ ((List.insertionSort (argRel R)
        ((search_area.map fun cell =>
          compute_cell_error env cell c1 c2 c3 e1 e2 e3).enum)).drop
        (search_area.length -
          (Int.ceil (p * (search_area.length : R))).toNat)).map
      (fun pr => search_area.getD pr.1 default), x ∈ search_area) ∧
    (∀ pr ∈ (List.insertionSort (argRel R)
        ((search_area.map fun cell =>
          compute_cell_error env cell c1 c2 c3 e1 e2 e3).enum)).drop
        (search_area.length -
          (Int.ceil (p * (search_area.length : R))).toNat),
      ∀ qr ∈ (List.insertionSort (argRel R)
        ((search_area.map fun cell =>
          compute_cell_error env cell c1 c2 c3 e1 e2 e3).enum)).take
        (search_area.length -
          (Int.ceil (p * (search_area.length : R))).toNat),
      compute_cell_error env (search_area.getD qr.1 default) c1 c2 c3 e1 e2 e3 ≤
        compute_cell_error env (search_area.getD pr.1 default) c1 c2 c3 e1 e2 e3) ∧
    (((List.insertionSort (argRel R)
        ((search_area.map fun cell =>
          compute_cell_error env cell c1 c2 c3 e1 e2 e3).enum)).map
      Prod.fst).Perm (List.range search_area.length)) := by
  have hsp_len : (List.insertionSort (argRel R)
      ((search_area.map fun cell =>
        compute_cell_error env cell c1 c2 c3 e1 e2 e3).enum)).length =
      search_area.length := by
    rw [List.length_insertionSort, List.enum_length, List.length_map]
  have hn'N : (Int.ceil (p * (search_area.length : R))).toNat ≤
      search_area.length := by omega
  refine ⟨estimate_error_eq env search_area c1 c2 c3 e1 e2 e3 p hn1 hnN,
    ?_, ?_, ?_, ?_⟩
  · rw [List.length_map, List.length_drop, hsp_len]
    omega
  · intro x hx
    rw [List.mem_map] at hx
    obtain ⟨pr, hpr, hx⟩ := hx
    have hmem := sortPairs_point env search_area c1 c2 c3 e1 e2 e3 pr
      (List.mem_of_mem_drop hpr)
    rw [← hx, List.getD_eq_getElem?_getD,
      List.getElem?_eq_getElem hmem.1]
    exact List.getElem_mem _
  · intro pr hpr qr hqr
    have hp := sortPairs_point env search_area c1 c2 c3 e1 e2 e3 pr
      (List.mem_of_mem_drop hpr)
    have hq := sortPairs_point env search_area c1 c2 c3 e1 e2 e3 qr
      (List.mem_of_mem_take hqr)
    rw [hp.2, hq.2]
    exact sortPairs_cross _ _ pr hpr qr hqr
  · have := (List.perm_insertionSort (argRel R)
      ((search_area.map fun cell =>
        compute_cell_error env cell c1 c2 c3 e1 e2 e3).enum)).map Prod.fst
    rw [List.enum_map_fst, List.length_map] at this
    exact this

/-- Witness for C2's amended theorem: two points, `p = 1/2`, so one point
is selected. -/
theorem C2_estimate_error_selects_witness :
    (1 ≤ Int.ceil ((1 / 2 : ℚ) * (([5, 6] : List ℕ).length : ℚ))) ∧
    estimate_error qEnv [5, 6] qInterp qInterp qInterp qInterp qInterp qInterp
      (1 / 2) =
      some (((List.insertionSort (argRel ℚ)
          (([5, 6].map fun cell =>
            compute_cell_error qEnv cell qInterp qInterp qInterp qInterp
              qInterp qInterp).enum)).drop
          (([5, 6] : List ℕ).length -
            (Int.ceil ((1 / 2 : ℚ) * (([5, 6] : List ℕ).length : ℚ))).toNat)).map
        fun pr => [5, 6].getD pr.1 default) :=
  ⟨by with_unfolding_all decide,
   (C2_estimate_error_selects qEnv [5, 6] qInterp qInterp qInterp qInterp
      qInterp qInterp (1 / 2) (by with_unfolding_all decide)
      (by with_unfolding_all decide)).1⟩

theorem iteratorFinish_elim (st1 : LoopState R Pt D W)
    (r : IterResult R Pt D W) (h : iteratorFinish st1 = some r) :
    ∃ ex ey ez, st1.ef_cur = some (ex, ey, ez) ∧
      (st1.diff < 1 / 100 →
        r = .converged st1.mesh ex ey ez st1.av_diff_list ∧
        IterResult.arity r = 5) ∧
      (¬st1.diff < 1 / 100 →
        r = .exhausted st1.mesh ex ey ez st1.av_diff_list st1.obj_hist
          st1.recv_hist st1.src_hist ∧
        IterResult.arity r = 8) := by
  unfold iteratorFinish at h
  cases hef : st1.ef_cur with
  | none => rw [hef] at h; exact absurd h (by simp)
  | some e =>
    obtain ⟨ex, ey, ez⟩ := e
    simp only [hef] at h
    refine ⟨ex, ey, ez, rfl, ?_, ?_⟩
    · intro hd
      rw [if_pos hd] at h
      simp only [Option.some.injEq] at h
      subst h
      exact ⟨rfl, rfl⟩
    · intro hd
      rw [if_neg hd] at h
      simp only [Option.some.injEq] at h
      subst h
      exact ⟨rfl, rfl⟩

/-- C3 counterexample: a fresh `iterator` run that exits by convergence
(the second iteration's average relative difference is 0) returns the
converged branch, whose Python tuple has five values — mesh, the three
electric-field interpolators and the convergence record — not four as the
claim states. -/
theorem C3_counterexample :
    (iterator qEnv meshQ () () () [0] () [0] [0] () 0 7 [] 1 1 resistivityStr
        rbfStr blockStr 5 2 3 3 (1 / 20) yStr 0 1 none none none [(0, 0)]
        none none none).map
      (fun r => (IterResult.arity r, IterResult.isConverged r)) =
      some (5, true) ∧ (5 : ℕ) ≠ 4 := by
  exact ⟨by with_unfolding_all decide, by decide⟩

/-- C3 amended: `iterator` and `iteratornonobject` exit exactly when the
average relative difference is at or under 0.01 or the iteration cap is
reached; the return shape is selected by the strictly-converged test
`diff < 0.01` on the final state: the short form has FIVE values (mesh,
the three electric-field interpolator components, convergence record) and
the long form has EIGHT (those five plus the three refinement-history
lists) — an exit with `diff` exactly 0.01 therefore takes the long
form. -/
theorem C3_exit_and_return_shape :
    (∀ (env : Env R Pt D W S V C) (mesh : OMesh Pt D W) (domain : D)
      (surface : S) (cell_width : W) (objct : List Pt) (coordinates : C)
      (receiver_locations source_locations : List Pt) (survey : V)
      (par_background par_object : R) (ind_object : List Bool)
      (frequency omega : R) (parameter interpolation type_object : String)
      (lim_iterations : Nat)
      (factor_object factor_receiver factor_source refine_percentage : R)
      (axis : String) (degrees_rad radius : R)
      (Ex Ey Ez : Option (Interp R Pt)) (diff_list : List (Nat × R))
      (r_a_o_list r_a_r_list r_a_s_list : Option (List (List Pt)))
      (r : IterResult R Pt D W),
      iterator env mesh domain surface cell_width objct coordinates
        receiver_locations source_locations survey par_background par_object
        ind_object frequency omega parameter interpolation type_object
        lim_iterations factor_object factor_receiver factor_source
        refine_percentage axis degrees_rad radius Ex Ey Ez diff_list
        r_a_o_list r_a_r_list r_a_s_list = some r →
      ∃ fresh cap st0 st1 n ex ey ez,
        iteratorInit env
          ⟨domain, surface, cell_width, objct, coordinates,
           receiver_locations, source_locations, survey, par_background,
           par_object, frequency, omega, parameter, interpolation,
           type_object, lim_iterations, factor_object, factor_receiver,
           factor_source, refine_percentage, axis, degrees_rad, radius⟩
          mesh ind_object Ex Ey Ez diff_list r_a_o_list r_a_r_list
          r_a_s_list = some (fresh, cap, st0) ∧
        amrLoop (iteratorBody env
          ⟨domain, surface, cell_width, objct, coordinates,
           receiver_locations, source_locations, survey, par_background,
           par_object, frequency, omega, parameter, interpolation,
           type_object, lim_iterations, factor_object, factor_receiver,
           factor_source, refine_percentage, axis, degrees_rad, radius⟩
          fresh) cap (cap - st0.i) st0 = some (st1, n) ∧
        st1.ef_cur = some (ex, ey, ez) ∧
        (st1.diff ≤ 1 / 100 ∨ cap ≤ st1.i) ∧
        (st1.diff < 1 / 100 →
          r = .converged st1.mesh ex ey ez st1.av_diff_list ∧
          IterResult.arity r = 5) ∧
        (¬st1.diff < 1 / 100 →
          r = .exhausted st1.mesh ex ey ez st1.av_diff_list st1.obj_hist
            st1.recv_hist st1.src_hist ∧
          IterResult.arity r = 8)) ∧
    (∀ (env : Env R Pt D W S V C) (mesh : OMesh Pt D W) (domain : D)
      (cell_width : W) (landscape : List Pt)
      (receiver_locations source_locations : List Pt) (survey : V)
      (resistivity_function : List Pt → List R)
      (model_map : MMap R Pt D W) (model : List R)
      (frequency omega : R) (parameter interpolation : String)
      (lim_iterations : Nat)
      (factor_receiver factor_source factor_landscape refine_percentage : R)
      (par_inactive : R)
      (Ex Ey Ez : Option (Interp R Pt)) (diff_list : List (Nat × R))
      (r_a_l_list r_a_r_list r_a_s_list : Option (List (List Pt)))
      (r : IterResult R Pt D W),
      iteratornonobject env mesh domain cell_width landscape
        receiver_locations source_locations survey resistivity_function
        model_map model frequency omega parameter interpolation
        lim_iterations factor_receiver factor_source factor_landscape
        refine_percentage par_inactive Ex Ey Ez diff_list r_a_l_list
        r_a_r_list r_a_s_list = some r →
      ∃ fresh cap st0 st1 n ex ey ez,
        iteratornonobjectInit env
          ⟨domain, cell_width, landscape, receiver_locations,
           source_locations, survey, resistivity_function, frequency, omega,
           parameter, interpolation, lim_iterations, factor_receiver,
           factor_source, factor_landscape, refine_percentage, par_inactive⟩
          mesh Ex Ey Ez diff_list r_a_l_list r_a_r_list r_a_s_list =
          some (fresh, cap, st0) ∧
        amrLoop (iteratornonobjectBody env
          ⟨domain, cell_width, landscape, receiver_locations,
           source_locations, survey, resistivity_function, frequency, omega,
           parameter, interpolation, lim_iterations, factor_receiver,
           factor_source, factor_landscape, refine_percentage, par_inactive⟩
          fresh) cap (cap - st0.i) st0 = some (st1, n) ∧
        st1.ef_cur = some (ex, ey, ez) ∧
        (st1.diff ≤ 1 / 100 ∨ cap ≤ st1.i) ∧
        (st1.diff < 1 / 100 →
          r = .converged st1.mesh ex ey ez st1.av_diff_list ∧
          IterResult.arity r = 5) ∧
        (¬st1.diff < 1 / 100 →
          r = .exhausted st1.mesh ex ey ez st1.av_diff_list st1.obj_hist
            st1.recv_hist st1.src_hist ∧
          IterResult.arity r = 8)) := by
  constructor
  · intro env mesh domain surface cell_width objct coordinates
      receiver_locations source_locations survey par_background par_object
      ind_object frequency omega parameter interpolation type_object
      lim_iterations factor_object factor_receiver factor_source
      refine_percentage axis degrees_rad radius Ex Ey Ez diff_list
      r_a_o_list r_a_r_list r_a_s_list r h
    simp only [iterator, Option.bind_eq_some] at h
    obtain ⟨⟨fresh, cap, st0⟩, hinit, ⟨st1, n⟩, hloop, hfin⟩ := h
    obtain ⟨ex, ey, ez, hef, hconv, hexh⟩ := iteratorFinish_elim st1 r hfin
    refine ⟨fresh, cap, st0, st1, n, ex, ey, ez, hinit, hloop, hef, ?_,
      hconv, hexh⟩
    exact amrLoop_exit _ cap
      (fun s s1 hs => (iteratorBody_shape _ _ fresh s s1 hs).1)
      (cap - st0.i) st0 st1 n (by omega) hloop
  · intro env mesh domain cell_width landscape receiver_locations
      source_locations survey resistivity_function model_map model frequency
      omega parameter interpolation lim_iterations factor_receiver
      factor_source factor_landscape refine_percentage par_inactive Ex Ey Ez
      diff_list r_a_l_list r_a_r_list r_a_s_list r h
    simp only [iteratornonobject, Option.bind_eq_some] at h
    obtain ⟨⟨fresh, cap, st0⟩, hinit, ⟨st1, n⟩, hloop, hfin⟩ := h
    obtain ⟨ex, ey, ez, hef, hconv, hexh⟩ := iteratorFinish_elim st1 r hfin
    refine ⟨fresh, cap, st0, st1, n, ex, ey, ez, hinit, hloop, hef, ?_,
      hconv, hexh⟩
    exact amrLoop_exit _ cap
      (fun s s1 hs => (iteratornonobjectBody_shape _ _ fresh s s1 hs).1)
      (cap - st0.i) st0 st1 n (by omega) hloop

/-- Witness for C3's amended theorem at the concrete converging run. -/
theorem C3_exit_and_return_shape_witness :
    iterator qEnv meshQ () () () [0] () [0] [0] () 0 7 [] 1 1
      resistivityStr rbfStr blockStr 5 2 3 3 (1 / 20) yStr 0 1 none none
      none [(0, 0)] none none none = some runC3 ∧
    (∃ fresh cap st0 st1 n ex ey ez,
      iteratorInit qEnv
        ⟨(), (), (), [0], (), [0], [0], (), 0, 7, 1, 1, resistivityStr,
         rbfStr, blockStr, 5, 2, 3, 3, 1 / 20, yStr, 0, 1⟩
        meshQ [] none none none [(0, 0)] none none none =
        some (fresh, cap, st0) ∧
      amrLoop (iteratorBody qEnv
        ⟨(), (), (), [0], (), [0], [0], (), 0, 7, 1, 1, resistivityStr,
         rbfStr, blockStr, 5, 2, 3, 3, 1 / 20, yStr, 0, 1⟩
        fresh) cap (cap - st0.i) st0 = some (st1, n) ∧
      st1.ef_cur = some (ex, ey, ez) ∧
      (st1.diff ≤ 1 / 100 ∨ cap ≤ st1.i) ∧
      (st1.diff < 1 / 100 →
        runC3 = .converged st1.mesh ex ey ez st1.av_diff_list ∧
        IterResult.arity runC3 = 5) ∧
      (¬st1.diff < 1 / 100 →
        runC3 = .exhausted st1.mesh ex ey ez st1.av_diff_list st1.obj_hist
          st1.recv_hist st1.src_hist ∧
        IterResult.arity runC3 = 8)) :=
  ⟨by with_unfolding_all decide,
   C3_exit_and_return_shape.1 qEnv meshQ () () () [0] () [0] [0] () 0 7 []
     1 1 resistivityStr rbfStr blockStr 5 2 3 3 (1 / 20) yStr 0 1 none none
     none [(0, 0)] none none none runC3 (by with_unfolding_all decide)⟩

/-- C4: for every 3-D point and every sextuple of interpolators (with the
numpy norm oracle being the Euclidean 2-norm, as numpy documents),
`compute_cell_error` returns the Euclidean norm of the difference between
(a) the curl reconstructed from the second-order finite-difference 3x3
Jacobian of the electric-field interpolator triple at the point, nan
entries replaced by 0 before the reconstruction, and (b) the face-based
curl interpolator triple at the same point — and that value is
non-negative. -/
theorem Cx.sub_re (a b : Cx R) : (a - b).re = a.re - b.re := rfl

theorem Cx.sub_im (a b : Cx R) : (a - b).im = a.im - b.im := rfl

theorem cnormEuclid_sub_comm (x y z w u v : Cx ℝ) :
    cnormEuclid (x - y) (z - w) (u - v) = cnormEuclid (y - x) (w - z) (v - u) := by
  unfold cnormEuclid cxAbsSq
  congr 1
  simp only [Cx.sub_re, Cx.sub_im]
  ring

theorem C4_compute_cell_error (env : Env ℝ Pt D W S V C)
    (hnorm : env.norm3c = cnormEuclid) (cell : Pt)
    (curl_x curl_y curl_z ef_x ef_y ef_z : Interp ℝ Pt) :
    compute_cell_error env cell curl_x curl_y curl_z ef_x ef_y ef_z =
      cnormEuclid
        ((curlFromJacobian (zeroNanJac (env.jacobian 2
            (fun x => (env.evalInterp ef_x x, env.evalInterp ef_y x,
              env.evalInterp ef_z x)) cell))).1 -
          env.evalInterp curl_x cell)
        ((curlFromJacobian (zeroNanJac (env.jacobian 2
            (fun x => (env.evalInterp ef_x x, env.evalInterp ef_y x,
              env.evalInterp ef_z x)) cell))).2.1 -
          env.evalInterp curl_y cell)
        ((curlFromJacobian (zeroNanJac (env.jacobian 2
            (fun x => (env.evalInterp ef_x x, env.evalInterp ef_y x,
              env.evalInterp ef_z x)) cell))).2.2 -
          env.evalInterp curl_z cell) ∧
    0 ≤ compute_cell_error env cell curl_x curl_y curl_z ef_x ef_y ef_z := by
  constructor
  · rw [compute_cell_error, hnorm]
    exact cnormEuclid_sub_comm _ _ _ _ _ _
  · rw [compute_cell_error, hnorm]
    exact Real.sqrt_nonneg _

/-- Witness for C4 at a concrete real environment whose norm oracle is
the Euclidean norm. -/
theorem C4_compute_cell_error_witness :
    envR.norm3c = cnormEuclid ∧
    0 ≤ compute_cell_error envR 0 rInterp rInterp rInterp rInterp rInterp
      rInterp :=
  ⟨rfl,
   (C4_compute_cell_error envR rfl 0 rInterp rInterp rInterp rInterp
     rInterp rInterp).2⟩

/-- C5 counterexample: for `diff_list = [(0, 5), (3, 2)]` the claim's
resume trigger holds (the first entry is not `[0, 0]`), so the claim says
the counter starts at `diff_list[-1, 0] = 3` and the cap becomes
`lim + 3`; but the code tests only `diff_list[0, 0] == 0`, which holds
here, so it runs fresh: counter 0 and cap `lim = 5`. -/
theorem C5_counterexample :
    (iteratorInit qEnv PQ meshQ [] none none none [(0, 5), (3, 2)] none none
      none).map (fun t => (t.1, t.2.1, t.2.2.i)) = some (true, 5, 0) ∧
    ((0, 5) : ℕ × ℚ) ≠ (0, 0) ∧
    (([(0, 5), (3, 2)] : List (ℕ × ℚ)).getLastD (0, 5)).1 = 3 ∧
    (0 : ℕ) ≠ 3 ∧ (5 : ℕ) ≠ 5 + 3 := by
  exact ⟨by with_unfolding_all decide, by with_unfolding_all decide,
    by with_unfolding_all decide, by decide, by decide⟩

/-- C5 amended: the fresh/resume dispatch of `iterator` is driven by
`diff_list[0,0] == 0` (the first COMPONENT of the first entry, not the
whole entry): when it is 0 the run is fresh — counter 0, cap
`lim_iterations` — and otherwise the counter starts at `diff_list[-1,0]`
and the cap is extended by exactly that starting index; in either case
the loop body executes at most `cap - i0` times (so at most
`lim_iterations` times fresh, and at most `lim_iterations` additional
times on resume) and, given the fuel the caller supplies, the loop only
stops with the guard false, so it always terminates. -/
theorem C5_fresh_resume_bounds :
    (∀ (env : Env R Pt D W S V C) (P : IterParams R Pt D W S V C)
      (mesh : OMesh Pt D W) (ind_object : List Bool)
      (Ex Ey Ez : Option (Interp R Pt)) (diff_list : List (Nat × R))
      (r1 r2 r3 : Option (List (List Pt))) (h : Nat × R),
      diff_list.head? = some h → h.1 = 0 →
      ∃ st0, iteratorInit env P mesh ind_object Ex Ey Ez diff_list r1 r2 r3 =
        some (true, P.lim_iterations, st0) ∧ st0.i = 0) ∧
    (∀ (env : Env R Pt D W S V C) (P : IterParams R Pt D W S V C)
      (mesh : OMesh Pt D W) (ind_object : List Bool)
      (Ex Ey Ez : Option (Interp R Pt)) (diff_list : List (Nat × R))
      (ro rr rs : List (List Pt)) (h : Nat × R),
      diff_list.head? = some h → ¬h.1 = 0 →
      ∃ st0, iteratorInit env P mesh ind_object Ex Ey Ez diff_list
          (some ro) (some rr) (some rs) =
        some (false, P.lim_iterations + (diff_list.getLastD h).1, st0) ∧
        st0.i = (diff_list.getLastD h).1) ∧
    (∀ (env : Env R Pt D W S V C) (P : IterParams R Pt D W S V C)
      (fresh : Bool) (cap fuel : Nat) (st st1 : LoopState R Pt D W) (n : Nat),
      amrLoop (iteratorBody env P fresh) cap fuel st = some (st1, n) →
      n ≤ cap - st.i ∧
      (cap ≤ st.i + fuel → st1.diff ≤ 1 / 100 ∨ cap ≤ st1.i)) := by
  refine ⟨?_, ?_, ?_⟩
  · intro env P mesh ind_object Ex Ey Ez diff_list r1 r2 r3 h hhead h0
    simp only [iteratorInit, hhead]
    rw [if_pos h0]
    exact ⟨_, rfl, rfl⟩
  · intro env P mesh ind_object Ex Ey Ez diff_list ro rr rs h hhead h0
    simp only [iteratorInit, hhead]
    rw [if_neg h0]
    exact ⟨_, rfl, rfl⟩
  · intro env P fresh cap fuel st st1 n hloop
    have hbody : ∀ s s1, iteratorBody env P fresh s = some s1 → s1.i = s.i + 1 :=
      fun s s1 hs => (iteratorBody_shape env P fresh s s1 hs).1
    exact ⟨amrLoop_count _ cap hbody fuel st st1 n hloop,
      fun hf => amrLoop_exit _ cap hbody fuel st st1 n hf hloop⟩

/-- Witness for C5's amended theorem: the fresh branch at the default
sentinel, and the loop bound on a concrete one-iteration run. -/
theorem C5_fresh_resume_bounds_witness :
    (([(0, 0)] : List (ℕ × ℚ)).head? = some (0, 0)) ∧
    (∃ st0, iteratorInit qEnv PQ meshQ [] none none none [(0, 0)] none none
        none = some (true, PQ.lim_iterations, st0) ∧ st0.i = 0) ∧
    (amrLoop (iteratorBody qEnv PQ true) 1 1 stQ).map Prod.snd = some 1 :=
  ⟨by decide,
   C5_fresh_resume_bounds.1 qEnv PQ meshQ [] none none none [(0, 0)] none
     none none (0, 0) (by decide) (by decide),
   by with_unfolding_all decide⟩

/-- C6 counterexample: a fresh `iterator` run capped at one iteration
executes its loop body once (each history list gains one entry, and the
instrumented loop reports one body execution) yet appends NOTHING to the
convergence record — the first fresh iteration has no previous field to
compare against and the source guards the append with `if i > 0`. -/
theorem C6_counterexample :
    (iterator qEnv meshQ () () () [0] () [0] [0] () 0 7 [] 1 1 resistivityStr
        rbfStr blockStr 1 2 3 3 (1 / 20) yStr 0 1 none none none [(0, 0)]
        none none none).map
      (fun r => (IterResult.avList r, IterResult.objHistLen r)) =
      some ([], 1) ∧
    (amrLoop (iteratorBody qEnv PQ true) 1 1 stQ).map
      (fun p => (p.2, p.1.av_diff_list)) = some (1, []) := by
  exact ⟨by with_unfolding_all decide, by with_unfolding_all decide⟩

/-- C6 amended: in every run of `iterator` the convergence record
receives exactly one `(i+1, diff)` pair per executed loop iteration
EXCEPT the very first iteration of a fresh run, which appends nothing
(so a fresh run with `n ≥ 1` executed iterations records `n - 1` pairs,
and a resumed run records one pair per iteration); whenever a pair is
appended, its index is the 1-based iteration number `i + 1` and its value
is the sum over all points of the three search areas combined of the
per-point relative-difference norm, divided by the total number of those
points. -/
theorem C6_convergence_record :
    (∀ (env : Env R Pt D W S V C) (P : IterParams R Pt D W S V C)
      (fresh : Bool) (st st1 : LoopState R Pt D W),
      iteratorBody env P fresh st = some st1 →
      ¬(fresh = true ∧ st.i = 0) →
      ∃ old, st.ef_old = some old ∧
        st1.av_diff_list = st.av_diff_list ++ [(st.i + 1, st1.diff)] ∧
        st1.diff =
          ((env.search_area_object st.mesh P.objct P.factor_object ++
            env.search_area_receivers st.mesh P.receiver_locations
              P.factor_receiver ++
            env.search_area_sources st.mesh P.source_locations
              P.factor_source).map
            (relDiffPoint env old
              ((estimate_curl_electric_field env st.mesh P.survey
                  st.model_map st.model P.interpolation P.frequency P.omega
                  P.parameter).2.2.2.1,
               (estimate_curl_electric_field env st.mesh P.survey
                  st.model_map st.model P.interpolation P.frequency P.omega
                  P.parameter).2.2.2.2.1,
               (estimate_curl_electric_field env st.mesh P.survey
                  st.model_map st.model P.interpolation P.frequency P.omega
                  P.parameter).2.2.2.2.2))).sum /
          (((env.search_area_object st.mesh P.objct P.factor_object ++
            env.search_area_receivers st.mesh P.receiver_locations
              P.factor_receiver ++
            env.search_area_sources st.mesh P.source_locations
              P.factor_source).map
            (relDiffPoint env old
              ((estimate_curl_electric_field env st.mesh P.survey
                  st.model_map st.model P.interpolation P.frequency P.omega
                  P.parameter).2.2.2.1,
               (estimate_curl_electric_field env st.mesh P.survey
                  st.model_map st.model P.interpolation P.frequency P.omega
                  P.parameter).2.2.2.2.1,
               (estimate_curl_electric_field env st.mesh P.survey
                  st.model_map st.model P.interpolation P.frequency P.omega
                  P.parameter).2.2.2.2.2))).length : R)) ∧
    (∀ (env : Env R Pt D W S V C) (P : IterParams R Pt D W S V C)
      (st st1 : LoopState R Pt D W),
      iteratorBody env P true st = some st1 → st.i = 0 →
      st1.av_diff_list = st.av_diff_list ∧ st1.diff = st.diff) ∧
    (∀ (env : Env R Pt D W S V C) (P : IterParams R Pt D W S V C)
      (cap fuel : Nat) (st st1 : LoopState R Pt D W) (n : Nat),
      st.i = 0 →
      amrLoop (iteratorBody env P true) cap fuel st = some (st1, n) →
      (n = 0 ∧ st1.av_diff_list = st.av_diff_list) ∨
      (0 < n ∧ st1.av_diff_list.length + 1 = st.av_diff_list.length + n)) ∧
    (∀ (env : Env R Pt D W S V C) (P : IterParams R Pt D W S V C)
      (cap fuel : Nat) (st st1 : LoopState R Pt D W) (n : Nat),
      amrLoop (iteratorBody env P false) cap fuel st = some (st1, n) →
      st1.av_diff_list.length = st.av_diff_list.length + n) := by
  have hbody_append : ∀ (env : Env R Pt D W S V C)
      (P : IterParams R Pt D W S V C) (fresh : Bool)
      (st st1 : LoopState R Pt D W),
      iteratorBody env P fresh st = some st1 → ¬(fresh = true ∧ st.i = 0) →
      ∃ old, st.ef_old = some old ∧
        st1.av_diff_list = st.av_diff_list ++ [(st.i + 1, st1.diff)] := by
    intro env P fresh st st1 h hni
    obtain ⟨_, _, _, _, _, _, d, av, hdu, hd, hav⟩ :=
      iteratorBody_shape env P fresh st st1 h
    obtain ⟨old, hold, _, havv⟩ :=
      loopDiffUpdate_compute env fresh st _ _ _ _ d av hdu hni
    exact ⟨old, hold, by rw [hav, havv, hd]⟩
  refine ⟨?_, ?_, ?_, ?_⟩
  · intro env P fresh st st1 h hni
    obtain ⟨_, _, _, _, _, _, d, av, hdu, hd, hav⟩ :=
      iteratorBody_shape env P fresh st st1 h
    obtain ⟨old, hold, hdv, havv⟩ :=
      loopDiffUpdate_compute env fresh st _ _ _ _ d av hdu hni
    refine ⟨old, hold, by rw [hav, havv, hd], ?_⟩
    rw [hd, hdv, List.map_append, List.map_append]
  · intro env P st st1 h h0
    obtain ⟨_, _, _, _, _, _, d, av, hdu, hd, hav⟩ :=
      iteratorBody_shape env P true st st1 h
    rw [loopDiffUpdate_skip env st _ _ _ _ h0] at hdu
    simp only [Option.some.injEq, Prod.mk.injEq] at hdu
    exact ⟨by rw [hav, ← hdu.2], by rw [hd, ← hdu.1]⟩
  · intro env P cap fuel st st1 n h0 hloop
    refine amrLoop_av_fresh _ cap
      (fun s s1 hs => (iteratorBody_shape env P true s s1 hs).1)
      (fun s s1 hs hi =>
        (by
          obtain ⟨_, _, _, _, _, _, d, av, hdu, hd, hav⟩ :=
            iteratorBody_shape env P true s s1 hs
          rw [loopDiffUpdate_skip env s _ _ _ _ hi] at hdu
          simp only [Option.some.injEq, Prod.mk.injEq] at hdu
          rw [hav, ← hdu.2]))
      (fun s s1 hs hi =>
        (by
          obtain ⟨old, _, hav⟩ := hbody_append env P true s s1 hs
            (by simp; omega)
          rw [hav, List.length_append, List.length_cons, List.length_nil]))
      fuel st st1 n h0 hloop
  · intro env P cap fuel st st1 n hloop
    refine amrLoop_av_all _ cap
      (fun s s1 hs =>
        (by
          obtain ⟨old, _, hav⟩ := hbody_append env P false s s1 hs (by simp)
          rw [hav, List.length_append, List.length_cons, List.length_nil]))
      fuel st st1 n hloop

/-- Witness for C6's amended theorem: the skip clause and the fresh
loop-cardinality clause at the concrete one-iteration run. -/
theorem C6_convergence_record_witness :
    stQ.i = 0 ∧
    ((1 = 0 ∧ ((amrLoop (iteratorBody qEnv PQ true) 1 1 stQ).getD
        (stQ, 0)).1.av_diff_list = stQ.av_diff_list) ∨
     (0 < 1 ∧ ((amrLoop (iteratorBody qEnv PQ true) 1 1 stQ).getD
        (stQ, 0)).1.av_diff_list.length + 1 = stQ.av_diff_list.length + 1)) :=
  ⟨rfl,
   C6_convergence_record.2.2.1 qEnv PQ 1 1 stQ
     ((amrLoop (iteratorBody qEnv PQ true) 1 1 stQ).getD (stQ, 0)).1 1 rfl
     (by with_unfolding_all decide)⟩

/-- C7: across iterations of `iterator` and `iteratornonobject`, each of
the three refinement-history lists grows by exactly one entry per
executed iteration, and on every mesh rebuild the fresh mesh is refined —
before finalization — at the current source locations, the current
receiver locations, and every entry of all three history lists (which
contain every entry ever appended), so no previously selected refinement
point is dropped. -/
theorem C7_history_and_replay :
    (∀ (env : Env R Pt D W S V C) (P : IterParams R Pt D W S V C)
      (fresh : Bool) (cap fuel : Nat) (st st1 : LoopState R Pt D W) (n : Nat),
      amrLoop (iteratorBody env P fresh) cap fuel st = some (st1, n) →
      st1.obj_hist.length = st.obj_hist.length + n ∧
      st1.recv_hist.length = st.recv_hist.length + n ∧
      st1.src_hist.length = st.src_hist.length + n) ∧
    (∀ (env : Env R Pt D W S V C) (P : IterParams R Pt D W S V C)
      (fresh : Bool) (st st1 : LoopState R Pt D W),
      iteratorBody env P fresh st = some st1 →
      st1.mesh.finalized = true ∧
      st1.mesh.refinements =
        [P.source_locations, P.receiver_locations] ++ st1.obj_hist ++
          st1.recv_hist ++ st1.src_hist ∧
      P.source_locations ∈ st1.mesh.refinements ∧
      P.receiver_locations ∈ st1.mesh.refinements ∧
      (∀ e, e ∈ st1.obj_hist ∨ e ∈ st1.recv_hist ∨ e ∈ st1.src_hist →
        e ∈ st1.mesh.refinements) ∧
      (∀ e, e ∈ st.obj_hist ∨ e ∈ st.recv_hist ∨ e ∈ st.src_hist →
        e ∈ st1.mesh.refinements)) ∧
    (∀ (env : Env R Pt D W S V C) (Q : NonObjParams R Pt D W V)
      (fresh : Bool) (cap fuel : Nat) (st st1 : LoopState R Pt D W) (n : Nat),
      amrLoop (iteratornonobjectBody env Q fresh) cap fuel st = some (st1, n) →
      st1.obj_hist.length = st.obj_hist.length + n ∧
      st1.recv_hist.length = st.recv_hist.length + n ∧
      st1.src_hist.length = st.src_hist.length + n) ∧
    (∀ (env : Env R Pt D W S V C) (Q : NonObjParams R Pt D W V)
      (fresh : Bool) (st st1 : LoopState R Pt D W),
      iteratornonobjectBody env Q fresh st = some st1 →
      st1.mesh.finalized = true ∧
      st1.mesh.refinements =
        [Q.source_locations, Q.receiver_locations] ++ st1.obj_hist ++
          st1.recv_hist ++ st1.src_hist ∧
      Q.source_locations ∈ st1.mesh.refinements ∧
      Q.receiver_locations ∈ st1.mesh.refinements ∧
      (∀ e, e ∈ st1.obj_hist ∨ e ∈ st1.recv_hist ∨ e ∈ st1.src_hist →
        e ∈ st1.mesh.refinements) ∧
      (∀ e, e ∈ st.obj_hist ∨ e ∈ st.recv_hist ∨ e ∈ st.src_hist →
        e ∈ st1.mesh.refinements)) := by
  refine ⟨?_, ?_, ?_, ?_⟩
  · intro env P fresh cap fuel st st1 n hloop
    refine amrLoop_hist _ cap ?_ fuel st st1 n hloop
    intro s s1 hs
    obtain ⟨_, ⟨c1, h1⟩, ⟨c2, h2⟩, ⟨c3, h3⟩, _⟩ :=
      iteratorBody_shape env P fresh s s1 hs
    simp [h1, h2, h3]
  · intro env P fresh st st1 h
    obtain ⟨_, ⟨c1, h1⟩, ⟨c2, h2⟩, ⟨c3, h3⟩, hfin, hrefs, _⟩ :=
      iteratorBody_shape env P fresh st st1 h
    refine ⟨hfin, hrefs, by simp [hrefs], by simp [hrefs], ?_, ?_⟩
    · intro e he
      rw [hrefs]
      rcases he with he | he | he <;> simp [he]
    · intro e he
      rw [hrefs]
      rcases he with he | he | he
      · have : e ∈ st1.obj_hist := by rw [h1]; exact List.mem_append_left _ he
        simp [this]
      · have : e ∈ st1.recv_hist := by rw [h2]; exact List.mem_append_left _ he
        simp [this]
      · have : e ∈ st1.src_hist := by rw [h3]; exact List.mem_append_left _ he
        simp [this]
  · intro env Q fresh cap fuel st st1 n hloop
    refine amrLoop_hist _ cap ?_ fuel st st1 n hloop
    intro s s1 hs
    obtain ⟨_, ⟨c1, h1⟩, ⟨c2, h2⟩, ⟨c3, h3⟩, _⟩ :=
      iteratornonobjectBody_shape env Q fresh s s1 hs
    simp [h1, h2, h3]
  · intro env Q fresh st st1 h
    obtain ⟨_, ⟨c1, h1⟩, ⟨c2, h2⟩, ⟨c3, h3⟩, hfin, hrefs, _⟩ :=
      iteratornonobjectBody_shape env Q fresh st st1 h
    refine ⟨hfin, hrefs, by simp [hrefs], by simp [hrefs], ?_, ?_⟩
    · intro e he
      rw [hrefs]
      rcases he with he | he | he <;> simp [he]
    · intro e he
      rw [hrefs]
      rcases he with he | he | he
      · have : e ∈ st1.obj_hist := by rw [h1]; exact List.mem_append_left _ he
        simp [this]
      · have : e ∈ st1.recv_hist := by rw [h2]; exact List.mem_append_left _ he
        simp [this]
      · have : e ∈ st1.src_hist := by rw [h3]; exact List.mem_append_left _ he
        simp [this]

/-- Witness for C7 at the concrete one-iteration run: the three history
lists each gain exactly one entry. -/
theorem C7_history_and_replay_witness :
    (amrLoop (iteratorBody qEnv PQ true) 1 1 stQ).map
      (fun p => (p.1.obj_hist.length, p.1.recv_hist.length,
        p.1.src_hist.length)) = some (1, 1, 1) ∧
    ((amrLoop (iteratorBody qEnv PQ true) 1 1 stQ).getD (stQ, 0)).1.obj_hist.length =
      stQ.obj_hist.length + 1 :=
  ⟨by with_unfolding_all decide,
   (C7_history_and_replay.1 qEnv PQ true 1 1 stQ
     ((amrLoop (iteratorBody qEnv PQ true) 1 1 stQ).getD (stQ, 0)).1 1
     (by with_unfolding_all decide)).1⟩

/-- C8 (code bug evaluation): on the rebuild path `iterator` calls
`get_ind_block(mesh, ind_active, coordinates)` without the caller's
`axis`/`degrees_rad` (source line 376), so the indicator falls back to the
defaults `'x'`, `0` — unlike the pre-loop setup (source line 236) which
passes them.  With two active cells, an indicator that marks cell 1 for
axis `'y'` and cell 0 otherwise, and a caller using axis `'y'`, the model
after one rebuild is `[par_object, par_background] = [7, 0]`, while the
claim's indicator — the caller's axis — yields `[0, 7]`. -/
theorem C8_rebuild_drops_rotation :
    (iteratorBody env8 PQ true stQ).map
      (fun s => (s.model, s.ind_object, s.ind_active)) =
      some ([7, 0], [true, false], [true, true]) ∧
    (iteratorBody env8 PQ true stQ).map
      (fun s => env8.get_ind_block s.mesh s.ind_active () PQ.axis
        PQ.degrees_rad) = some [false, true] ∧
    (iteratorBody env8 PQ true stQ).map
      (fun s => maskAssign
        (List.replicate (s.ind_active.count true) PQ.par_background)
        (env8.get_ind_block s.mesh s.ind_active () PQ.axis PQ.degrees_rad)
        PQ.par_object) = some [0, 7] ∧
    ([7, 0] : List ℚ) ≠ [0, 7] := by
  exact ⟨by with_unfolding_all decide, by with_unfolding_all decide,
    by with_unfolding_all decide, by decide⟩

/-- C9 counterexample: a two-cell column with ascending nodes
`[-2, -1, 0]`, a resistive bottom cell (10) and a conductive top cell
(0.2).  The code records `-1` — the BOTTOM node of the DEEPEST matching
cell — while the claim's reading (top elevation of the shallowest
matching cell) yields `0`. -/
theorem C9_counterexample :
    seafloorEntry [-2, -1, 0] [10, 1 / 5] = some (-1) ∧
    claimSeafloorEntry [-2, -1, 0] [10, 1 / 5] = some 0 ∧
    (some (-1 : ℚ)) ≠ some (0 : ℚ) := by
  exact ⟨by with_unfolding_all decide, by with_unfolding_all decide,
    by with_unfolding_all decide⟩

theorem head_filter_split (l : List (ℚ × ℚ))
    (hex : ∃ x ∈ l, x.2 < 33 / 100) :
    ∃ pre b q rest, l = pre ++ (b, q) :: rest ∧
      (∀ x ∈ pre, ¬x.2 < 33 / 100) ∧ q < 33 / 100 ∧
      ((l.filter fun pb => pb.2 < 33 / 100).head?) = some (b, q) := by
  induction l with
  | nil =>
    obtain ⟨x, hx, _⟩ := hex
    cases hx
  | cons a t ih =>
    by_cases ha : a.2 < 33 / 100
    · refine ⟨[], a.1, a.2, t, by simp, by simp, ha, ?_⟩
      simp [List.filter_cons, ha]
    · have hex' : ∃ x ∈ t, x.2 < 33 / 100 := by
        obtain ⟨x, hx, hpx⟩ := hex
        rcases List.mem_cons.mp hx with rfl | hx'
        · exact absurd hpx ha
        · exact ⟨x, hx', hpx⟩
      obtain ⟨pre, b, q, rest, heq, hpre, hq, hhead⟩ := ih hex'
      refine ⟨a :: pre, b, q, rest, by rw [List.cons_append, heq], ?_, hq, ?_⟩
      · intro x hx
        rcases List.mem_cons.mp hx with rfl | hx'
        · exact ha
        · exact hpre x hx'
      · simp only [List.filter_cons]
        rw [if_neg (by simpa using ha)]
        exact hhead

/-- C9 amended: for a column with ascending node elevations and at least
one cell whose x-resistivity is below 0.33, the recorded seafloor value is
the BOTTOM node elevation (the `nodes_z[:-1]` entry) of the FIRST — i.e.
deepest, numerically smallest z — cell in ascending order whose
x-resistivity is below 0.33; every cell before it fails the threshold,
and the recorded elevation is ≤ the bottom elevation of every matching
cell. -/
theorem C9_seafloor_entry (nodes_z column_property : List ℚ)
    (hlen : column_property.length + 1 = nodes_z.length)
    (hsorted : nodes_z.Pairwise (· ≤ ·))
    (hex : ∃ x ∈ nodes_z.dropLast.zip column_property, x.2 < 33 / 100) :
    ∃ pre b q rest,
      nodes_z.dropLast.zip column_property = pre ++ (b, q) :: rest ∧
      (∀ x ∈ pre, ¬x.2 < 33 / 100) ∧
      q < 33 / 100 ∧
      seafloorEntry nodes_z column_property = some b ∧
      (∀ x ∈ nodes_z.dropLast.zip column_property, x.2 < 33 / 100 → b ≤ x.1) := by
  obtain ⟨pre, b, q, rest, heq, hpre, hq, hhead⟩ :=
    head_filter_split (nodes_z.dropLast.zip column_property) hex
  have hbot : nodes_z.dropLast.Pairwise (· ≤ ·) :=
    List.Pairwise.sublist (List.dropLast_sublist nodes_z) hsorted
  have hlen' : nodes_z.dropLast.length = column_property.length := by
    rw [List.length_dropLast]
    omega
  have hmapfst : (nodes_z.dropLast.zip column_property).map Prod.fst =
      nodes_z.dropLast :=
    List.map_fst_zip _ _ (le_of_eq hlen')
  have hpz : (nodes_z.dropLast.zip column_property).Pairwise
      (fun x y => x.1 ≤ y.1) := by
    rw [← hmapfst] at hbot
    exact List.pairwise_map.mp hbot
  refine ⟨pre, b, q, rest, heq, hpre, hq, ?_, ?_⟩
  · rw [seafloorEntry, hhead]
    rfl
  · intro x hx hpx
    rw [heq] at hx
    rcases List.mem_append.mp hx with hx1 | hx2
    · exact absurd hpx (hpre x hx1)
    · rcases List.mem_cons.mp hx2 with rfl | hx3
      · exact le_refl _
      · rw [heq] at hpz
        have hrest := (List.pairwise_append.mp hpz).2.1
        exact (List.pairwise_cons.mp hrest).1 x hx3

/-- Witness for C9's amended theorem at the counterexample column. -/
theorem C9_seafloor_entry_witness :
    (([10, 1 / 5] : List ℚ).length + 1 = ([-2, -1, 0] : List ℚ).length) ∧
    (∃ pre b q rest,
      ([-2, -1, 0] : List ℚ).dropLast.zip ([10, 1 / 5] : List ℚ) =
        pre ++ (b, q) :: rest ∧
      (∀ x ∈ pre, ¬x.2 < 33 / 100) ∧
      q < 33 / 100 ∧
      seafloorEntry [-2, -1, 0] [10, 1 / 5] = some b ∧
      (∀ x ∈ ([-2, -1, 0] : List ℚ).dropLast.zip ([10, 1 / 5] : List ℚ),
        x.2 < 33 / 100 → b ≤ x.1)) :=
  ⟨by decide,
   C9_seafloor_entry [-2, -1, 0] [10, 1 / 5] (by decide)
     (by with_unfolding_all decide) (by with_unfolding_all decide)⟩

/-- C10: the result of `iteratornonobject` does not depend on the
caller-supplied `model_map` and `model` arguments — both are
unconditionally recomputed (the map from an all-true active-cell mask
with fill `par_inactive`, the model from `resistivity_function` at the
mesh's cell centers) before any use, so two calls differing only in those
two arguments return identical results. -/
theorem C10_model_args_ignored (env : Env R Pt D W S V C)
    (mesh : OMesh Pt D W) (domain : D) (cell_width : W)
    (landscape : List Pt) (receiver_locations source_locations : List Pt)
    (survey : V) (resistivity_function : List Pt → List R)
    (model_map1 model_map2 : MMap R Pt D W) (model1 model2 : List R)
    (frequency omega : R) (parameter interpolation : String)
    (lim_iterations : Nat)
    (factor_receiver factor_source factor_landscape refine_percentage : R)
    (par_inactive : R) (Ex Ey Ez : Option (Interp R Pt))
    (diff_list : List (Nat × R))
    (r_a_l_list r_a_r_list r_a_s_list : Option (List (List Pt))) :
    iteratornonobject env mesh domain cell_width landscape
      receiver_locations source_locations survey resistivity_function
      model_map1 model1 frequency omega parameter interpolation
      lim_iterations factor_receiver factor_source factor_landscape
      refine_percentage par_inactive Ex Ey Ez diff_list r_a_l_list
      r_a_r_list r_a_s_list =
    iteratornonobject env mesh domain cell_width landscape
      receiver_locations source_locations survey resistivity_function
      model_map2 model2 frequency omega parameter interpolation
      lim_iterations factor_receiver factor_source factor_landscape
      refine_percentage par_inactive Ex Ey Ez diff_list r_a_l_list
      r_a_r_list r_a_s_list := rfl

end OresdAmr
